import Mathlib

/-!
Verification development for the VLC MPEG-TS demultiplexer core
(modules/demux/ts.c).  The C functions relevant to the checked
properties are shallowly embedded below: machine integers (mtime_t,
int64_t, int) are modelled as Lean Int, byte buffers as Nat-valued
functions or lists (each byte < 256), and the stateful demuxer
session (demux_sys_t, ts_pid_t) as explicit record-passing.  C
truncating division/remainder are Int.tdiv / Int.tmod.  Loops whose
iteration count is bounded by a loop variable are written as
structural recursion on the remaining iteration count so that the
definitions evaluate by decide/rfl on concrete inputs.
-/

/-! ## Basic constants (ts.c) -/

/-- VLC_TS_INVALID: the sentinel timestamp carried by a freshly
allocated block (vlc defines it as 0). -/
def VLC_TS_INVALID : Int := 0

/-- VLC_TS_0: origin of the internal microsecond clock domain
(VLC_TS_INVALID + 1). -/
def VLC_TS_0 : Int := 1

/-- TS_PACKET_SIZE_MAX from ts.c. -/
def TS_PACKET_SIZE_MAX : Nat := 204

/-- Wraparound increment used by AdjustPCRWrapAround and Seek in
ts.c: the literal 0x1FFFFFFFF. -/
def pcrWrapAdd : Int := 0x1FFFFFFFF

/-! ## AdjustPCRWrapAround (ts.c lines 2049-2068)

The demuxer keeps a sparse table of (byte position, raw PCR) samples
(p_sys->p_pos, p_sys->p_pcrs, p_sys->i_pcrs_num entries).  The C
function walks the table for indices i = 1.. while i < i_pcrs_num and
p_pos[i] <= stream_Tell(), adding 0x1FFFFFFFF for each descent
p_pcrs[i-1] > p_pcrs[i]; afterwards it adds 0x1FFFFFFFF once more if
p_pcrs[i-1] > i_pcr, and returns i_pcr plus the accumulated adjust.
The scan is written with an explicit remaining-iteration count; the
caller passes num, which bounds the loop (the index starts at 1 and
increases each step, so at most num-1 iterations happen). -/

def adjustScan (pcrs poss : Nat → Int) (num : Nat) (iPos : Int) :
    Nat → Int → Nat → Nat × Int
  | i, acc, 0 => (i, acc)
  | i, acc, rem + 1 =>
    if i < num ∧ poss i ≤ iPos then
      adjustScan pcrs poss num iPos (i + 1)
        (acc + (if pcrs (i - 1) > pcrs i then pcrWrapAdd else 0)) rem
    else
      (i, acc)

/-- AdjustPCRWrapAround: pcrs/poss/num model p_sys->p_pcrs,
p_sys->p_pos, p_sys->i_pcrs_num; iPos models stream_Tell(); iPcr is
the raw reading being corrected. -/
def AdjustPCRWrapAround (pcrs poss : Nat → Int) (num : Nat)
    (iPos iPcr : Int) : Int :=
  let r := adjustScan pcrs poss num iPos 1 0 num
  iPcr + r.2 + (if pcrs (r.1 - 1) > iPcr then pcrWrapAdd else 0)

/-! ## DetectPacketSize (ts.c lines 420-541)

The stream's first len bytes are modelled by w : Nat -> Nat (each
byte < 256).  The function peeks 204 bytes (fails if fewer), special
cases a "TFrc" Topfield header, then scans candidate offsets
0..203: at each offset holding the sync byte 0x47 it peeks
204*3 + i + 1 bytes (error if the stream is shorter) and tests sync
recurrence at the three candidate sizes in the order 188, 192, 204;
a 4-byte pre-header is recorded only in the 192 branch when the
offset is exactly 4.  If no candidate matches, forced-open mode
yields 188, otherwise failure.  none models the C return -1; the
scan recurses on the count of offsets still to try (204 - i). -/

def matchSize (w : Nat → Nat) (i size : Nat) : Bool :=
  w (i + 1 * size) == 0x47 && w (i + 2 * size) == 0x47 &&
    w (i + 3 * size) == 0x47

def detectScan (w : Nat → Nat) (len : Nat) (bforce : Bool) :
    Nat → Nat → Option (Nat × Nat)
  | _, 0 => if bforce then some (188, 0) else none
  | i, rem + 1 =>
    if w i == 0x47 then
      if len < TS_PACKET_SIZE_MAX * 3 + i + 1 then
        none
      else if matchSize w i 188 then
        some (188, 0)
      else if matchSize w i 192 then
        some (192, if i == 4 then 4 else 0)
      else if matchSize w i 204 then
        some (204, 0)
      else
        detectScan w len bforce (i + 1) rem
    else
      detectScan w len bforce (i + 1) rem

/-- DetectPacketSize returns some (packet size, header size), or none
for the C return value -1. -/
def DetectPacketSize (w : Nat → Nat) (len : Nat) (bforce : Bool) :
    Option (Nat × Nat) :=
  if len < TS_PACKET_SIZE_MAX then
    none
  else if w 0 == 0x54 && w 1 == 0x46 && w 2 == 0x72 && w 3 == 0x63 then
    some (188, 0)
  else
    detectScan w len bforce 0 TS_PACKET_SIZE_MAX

/-- candidateMatch: offset i holds the sync byte and at least one of
the three sizes recurs three times (the condition under which the C
scan returns at offset i). -/
def candidateMatch (w : Nat → Nat) (i : Nat) : Bool :=
  w i == 0x47 &&
    (matchSize w i 188 || matchSize w i 192 || matchSize w i 204)


/-! ## Scan lemmas for DetectPacketSize -/

lemma detectScan_no_candidate (w : Nat → Nat) (len : Nat) (bforce : Bool) :
    ∀ rem i,
      (∀ j, j < rem → candidateMatch w (i + j) = false) →
      (∀ j, j < rem → w (i + j) == 0x47 →
        TS_PACKET_SIZE_MAX * 3 + (i + j) + 1 ≤ len) →
      detectScan w len bforce i rem =
        (if bforce then some (188, 0) else none) := by
  intro rem
  induction rem with
  | zero => intro i _ _; rfl
  | succ n ih =>
    intro i hno hlen
    rw [detectScan]
    by_cases hsync : w i == 0x47
    · have hlen0 : TS_PACKET_SIZE_MAX * 3 + i + 1 ≤ len := by
        have := hlen 0 (Nat.succ_pos n) (by simpa using hsync)
        simpa using this
      have hc := hno 0 (Nat.succ_pos n)
      simp only [Nat.add_zero, candidateMatch, hsync, Bool.true_and] at hc
      simp only [Bool.or_eq_false_iff] at hc
      rw [if_pos hsync, if_neg (by omega), if_neg (by simp [hc.1.1]),
        if_neg (by simp [hc.1.2]), if_neg (by simp [hc.2])]
      apply ih
      · intro j hj
        have := hno (j + 1) (by omega)
        simpa [Nat.add_comm, Nat.add_assoc, Nat.add_left_comm] using this
      · intro j hj hs
        have := hlen (j + 1) (by omega)
        simp only [show i + (j + 1) = i + 1 + j by omega] at this
        exact this hs
    · rw [if_neg hsync]
      apply ih
      · intro j hj
        have := hno (j + 1) (by omega)
        simpa [Nat.add_comm, Nat.add_assoc, Nat.add_left_comm] using this
      · intro j hj hs
        have := hlen (j + 1) (by omega)
        simp only [show i + (j + 1) = i + 1 + j by omega] at this
        exact this hs

lemma detectScan_first_hit (w : Nat → Nat) (len : Nat) (bforce : Bool) :
    ∀ rem i i0,
      i ≤ i0 → i0 < i + rem →
      (∀ j, i ≤ j → j < i0 → candidateMatch w j = false) →
      (∀ j, i ≤ j → j < i0 → w j == 0x47 →
        TS_PACKET_SIZE_MAX * 3 + j + 1 ≤ len) →
      candidateMatch w i0 = true →
      TS_PACKET_SIZE_MAX * 3 + i0 + 1 ≤ len →
      detectScan w len bforce i rem =
        (if matchSize w i0 188 then some (188, 0)
         else if matchSize w i0 192 then
           some (192, if i0 == 4 then 4 else 0)
         else some (204, 0)) := by
  intro rem
  induction rem with
  | zero => intro i i0 h1 h2; omega
  | succ n ih =>
    intro i i0 hle hlt hno hlen hc hclen
    rw [detectScan]
    by_cases heq : i = i0
    · subst heq
      have hc' := hc
      simp only [candidateMatch, Bool.and_eq_true, Bool.or_eq_true] at hc'
      rw [if_pos hc'.1, if_neg (by omega)]
      cases h188 : matchSize w i 188
      · cases h192 : matchSize w i 192
        · have h204 : matchSize w i 204 = true := by
            rcases hc'.2 with (h | h) | h
            · rw [h188] at h; exact absurd h (by simp)
            · rw [h192] at h; exact absurd h (by simp)
            · exact h
          simp [h188, h192, h204]
        · simp [h188, h192]
      · simp [h188]
    · have hi : i < i0 := lt_of_le_of_ne hle heq
      have hcfalse := hno i le_rfl hi
      by_cases hsync : w i == 0x47
      · simp only [candidateMatch, hsync, Bool.true_and,
          Bool.or_eq_false_iff] at hcfalse
        have hl := hlen i le_rfl hi hsync
        rw [if_pos hsync, if_neg (by omega), if_neg (by simp [hcfalse.1.1]),
          if_neg (by simp [hcfalse.1.2]), if_neg (by simp [hcfalse.2])]
        exact ih (i + 1) i0 (by omega) (by omega)
          (fun j hj hj2 => hno j (by omega) hj2)
          (fun j hj hj2 hs => hlen j (by omega) hj2 hs) hc hclen
      · rw [if_neg hsync]
        exact ih (i + 1) i0 (by omega) (by omega)
          (fun j hj hj2 => hno j (by omega) hj2)
          (fun j hj hj2 hs => hlen j (by omega) hj2 hs) hc hclen

/-- Concrete peek window for packet-size detection: the sync byte
0x47 sits at offsets 4, 4+188, 4+376, 4+564 and nowhere else, i.e.
four consecutive valid 188-byte packets preceded by 4 bytes of
non-sync data. -/
def w4c : Nat → Nat :=
  fun n => if n = 4 ∨ n = 192 ∨ n = 380 ∨ n = 568 then 0x47 else 0

/-- C4 counterexample: on a window whose first (and only) matching
candidate offset is exactly 4, matching at size 188, DetectPacketSize
returns header size 0: the 4-byte pre-header is not recorded for a
first match at offset 4 (it is recorded only in the 192-size
branch), contradicting the claim. -/
theorem C4_counterexample :
    (∀ j, j < 4 → w4c j ≠ 0x47) ∧ w4c 4 = 0x47 ∧
      matchSize w4c 4 188 = true ∧
      DetectPacketSize w4c 816 false = some (188, 0) ∧
      DetectPacketSize w4c 816 false ≠ some (188, 4) := by
  refine ⟨?_, by decide, by decide, by decide, by decide⟩
  decide

/-- C4 (amended): DetectPacketSize scans candidate offsets 0..203 for
a sync byte, checks sync recurrence at +188/+192/+204 three times,
and returns the smallest size matching at the first candidate offset
where any size matches; a 4-byte pre-header is recorded only when
that smallest matching size is 192 and the offset is exactly 4.  On
a window with no recurring sync pattern (and no Topfield "TFrc"
magic) it fails, unless forced-open mode is set, in which case it
returns 188. -/
theorem C4_detect_packet_size :
    (∀ (w : Nat → Nat) (len : Nat),
      816 ≤ len →
      (w 0 == 0x54 && w 1 == 0x46 && w 2 == 0x72 && w 3 == 0x63) = false →
      (∀ j, j < 204 → candidateMatch w j = false) →
      DetectPacketSize w len false = none ∧
        DetectPacketSize w len true = some (188, 0)) ∧
    (∀ (w : Nat → Nat) (len : Nat) (bforce : Bool) (i0 : Nat),
      816 ≤ len →
      (w 0 == 0x54 && w 1 == 0x46 && w 2 == 0x72 && w 3 == 0x63) = false →
      i0 < 204 →
      (∀ j, j < i0 → candidateMatch w j = false) →
      candidateMatch w i0 = true →
      DetectPacketSize w len bforce =
        (if matchSize w i0 188 then some (188, 0)
         else if matchSize w i0 192 then
           some (192, if i0 == 4 then 4 else 0)
         else some (204, 0))) := by
  constructor
  · intro w len hlen hT hno
    have hnolen : ∀ j, j < 204 → w (0 + j) == 0x47 →
        TS_PACKET_SIZE_MAX * 3 + (0 + j) + 1 ≤ len := by
      intro j hj _
      simp only [TS_PACKET_SIZE_MAX]
      omega
    have hno' : ∀ j, j < 204 → candidateMatch w (0 + j) = false := by
      intro j hj
      simpa using hno j hj
    have hnf : ¬ (len < TS_PACKET_SIZE_MAX) := by
      simp only [TS_PACKET_SIZE_MAX]; omega
    constructor
    · rw [DetectPacketSize, if_neg hnf, if_neg (by simp [hT])]
      exact detectScan_no_candidate w len false TS_PACKET_SIZE_MAX 0 hno' hnolen
    · rw [DetectPacketSize, if_neg hnf, if_neg (by simp [hT])]
      exact detectScan_no_candidate w len true TS_PACKET_SIZE_MAX 0 hno' hnolen
  · intro w len bforce i0 hlen hT hi0 hno hc
    have hnf : ¬ (len < TS_PACKET_SIZE_MAX) := by
      simp only [TS_PACKET_SIZE_MAX]; omega
    rw [DetectPacketSize, if_neg hnf, if_neg (by simp [hT])]
    exact detectScan_first_hit w len bforce TS_PACKET_SIZE_MAX 0 i0
      (Nat.zero_le _) (by simp only [TS_PACKET_SIZE_MAX]; omega)
      (fun j _ hj => hno j hj)
      (fun j _ hj _ => by simp only [TS_PACKET_SIZE_MAX]; omega)
      hc (by simp only [TS_PACKET_SIZE_MAX]; omega)

/-- C4 witness: the amended theorem applied to the concrete window
w4c, whose first matching candidate offset is 4 at size 188. -/
theorem C4_witness :
    DetectPacketSize w4c 816 false = some (188, 0) := by
  have h := C4_detect_packet_size.2 w4c 816 false 4 (by omega) (by decide)
    (by omega) (by decide) (by decide)
  rw [h]
  decide

/-! ## C2: PCR wraparound adjustment -/

/-- Concrete two-sample PCR table for the claimed scenario: sample 0
at byte offset 0 with raw PCR 2^33 - 100, sample 1 at byte offset
1880 with raw PCR 50. -/
def pcrsC2 : Nat → Int := fun n => if n = 0 then 2 ^ 33 - 100 else 50

/-- Byte offsets paired with pcrsC2. -/
def possC2 : Nat → Int := fun n => if n = 0 then 0 else 1880

/-- C2 counterexample: on the claimed two-sample scenario the code
corrects the second reading to 50 + 0x1FFFFFFFF = 50 + (2^33 - 1),
not 50 + 2^33: AdjustPCRWrapAround adds 0x1FFFFFFFF per detected
rollover, one count short of the full 33-bit modulus. -/
theorem C2_counterexample :
    AdjustPCRWrapAround pcrsC2 possC2 2 1880 50 = 50 + (2 ^ 33 - 1) ∧
      AdjustPCRWrapAround pcrsC2 possC2 2 1880 50 ≠ 50 + 2 ^ 33 := by
  constructor
  · decide
  · decide

/-- C2 (amended): a later sample numerically smaller than its
predecessor is detected as a rollover and adds 0x1FFFFFFFF
(= 2^33 - 1, not the full modulus 2^33) to all subsequent raw
readings; for the samples (offset 0, 2^33 - 100) and (offset 1880,
50) the corrected second value is 50 + (2^33 - 1); and over a
3-sample table containing one rollover (between samples 0 and 1),
with the read position past all samples and the raw reading at least
the last sample, the adjusted result is at least the prior sample's
adjusted value (hence at least its raw value). -/
theorem C2_adjust_pcr_wraparound :
    AdjustPCRWrapAround pcrsC2 possC2 2 1880 50 = 50 + (2 ^ 33 - 1) ∧
    pcrWrapAdd = 2 ^ 33 - 1 ∧
    (∀ (pcrs poss : Nat → Int) (iPos iPcr : Int),
      pcrs 0 > pcrs 1 → pcrs 1 ≤ pcrs 2 →
      poss 1 ≤ iPos → poss 2 ≤ iPos → pcrs 2 ≤ iPcr →
      AdjustPCRWrapAround pcrs poss 3 iPos iPcr = iPcr + pcrWrapAdd ∧
        pcrs 2 + pcrWrapAdd ≤ AdjustPCRWrapAround pcrs poss 3 iPos iPcr ∧
        pcrs 2 ≤ AdjustPCRWrapAround pcrs poss 3 iPos iPcr) := by
  refine ⟨by decide, by decide, ?_⟩
  intro pcrs poss iPos iPcr h01 h12 hp1 hp2 hlast
  have hscan : adjustScan pcrs poss 3 iPos 1 0 3 = (3, pcrWrapAdd) := by
    rw [adjustScan, if_pos ⟨by omega, hp1⟩, if_pos h01]
    rw [adjustScan, if_pos ⟨by omega, hp2⟩, if_neg (by norm_num; omega)]
    rw [adjustScan, if_neg (by omega)]
    norm_num
  have hres : AdjustPCRWrapAround pcrs poss 3 iPos iPcr = iPcr + pcrWrapAdd := by
    rw [AdjustPCRWrapAround, hscan]
    simp only
    rw [if_neg (by norm_num; omega)]
    ring
  refine ⟨hres, ?_, ?_⟩
  · rw [hres]; omega
  · rw [hres]
    have : (0 : Int) ≤ pcrWrapAdd := by decide
    omega

/-- C2 witness: the amended theorem's general 3-sample part applied
to the concrete table 100, 5, 7 (rollover between samples 0 and 1)
with raw reading 10. -/
theorem C2_witness :
    AdjustPCRWrapAround (fun n => if n = 0 then 100 else if n = 1 then 5 else 7)
        (fun _ => 0) 3 0 10 = 10 + pcrWrapAdd ∧
      (7 : Int) ≤ AdjustPCRWrapAround
        (fun n => if n = 0 then 100 else if n = 1 then 5 else 7)
        (fun _ => 0) 3 0 10 := by
  have h := C2_adjust_pcr_wraparound.2.2
    (fun n => if n = 0 then 100 else if n = 1 then 5 else 7)
    (fun _ => 0) 0 10 (by norm_num) (by norm_num) (by norm_num)
    (by norm_num) (by norm_num)
  exact ⟨h.1, h.2.2⟩

/-! ## Data model for the demuxer state (ts.c)

Blocks (block_t) carry a byte buffer and the properties the demuxer
touches: the CORRUPTED flag, timestamps and duration.  Byte values
are Nats < 256.  The per-PID state mirrors ts_pid_t/ts_es_t; the
union { psi, es } is modelled by a Bool psi selector next to an
always-present es record (unused for PSI pids).  es_out handles are
modelled by the Bool id (field es->id non-NULL) and registration is
an event.  The owning program lookup loops (pid->p_owner->prg[..]
matched against pid->i_owner_number) are modelled by owner_pcr, the
matched program's i_pcr_value (none when the PID has no owner). -/

/-- VLC_FOURCC. -/
def VLC_FOURCC (a b c d : Nat) : Nat :=
  a ||| (b <<< 8) ||| (c <<< 16) ||| (d <<< 24)

def VLC_CODEC_MPGV : Nat := VLC_FOURCC 0x6d 0x70 0x67 0x76
def VLC_CODEC_MPGA : Nat := VLC_FOURCC 0x6d 0x70 0x67 0x61
def VLC_CODEC_MP4A : Nat := VLC_FOURCC 0x6d 0x70 0x34 0x61
def VLC_CODEC_MP4V : Nat := VLC_FOURCC 0x6d 0x70 0x34 0x76
def VLC_CODEC_H264 : Nat := VLC_FOURCC 0x68 0x32 0x36 0x34
def VLC_CODEC_HEVC : Nat := VLC_FOURCC 0x68 0x65 0x76 0x63
def VLC_CODEC_CAVS : Nat := VLC_FOURCC 0x43 0x41 0x56 0x53
def VLC_CODEC_A52 : Nat := VLC_FOURCC 0x61 0x35 0x32 0x20
def VLC_CODEC_SCTE_27 : Nat := VLC_FOURCC 0x53 0x43 0x32 0x37
def VLC_CODEC_SDDS : Nat := VLC_FOURCC 0x73 0x64 0x64 0x73
def VLC_CODEC_DTS : Nat := VLC_FOURCC 0x64 0x74 0x73 0x20
def VLC_CODEC_EAC3 : Nat := VLC_FOURCC 0x65 0x61 0x63 0x33
def VLC_CODEC_SUBT : Nat := VLC_FOURCC 0x73 0x75 0x62 0x74
def VLC_CODEC_TELETEXT : Nat := VLC_FOURCC 0x74 0x65 0x6c 0x78
def VLC_CODEC_ARIB_A : Nat := VLC_FOURCC 0x61 0x72 0x62 0x61
def VLC_CODEC_ARIB_C : Nat := VLC_FOURCC 0x61 0x72 0x62 0x63
def VLC_CODEC_OPUS : Nat := VLC_FOURCC 0x4f 0x70 0x75 0x73
def VLC_CODEC_A52B : Nat := VLC_FOURCC 0x61 0x35 0x32 0x62
def VLC_CODEC_DTSB : Nat := VLC_FOURCC 0x64 0x74 0x73 0x62
def VLC_CODEC_LPCB : Nat := VLC_FOURCC 0x6c 0x70 0x63 0x62
def VLC_CODEC_SPUB : Nat := VLC_FOURCC 0x73 0x70 0x75 0x62
def VLC_CODEC_SDDB : Nat := VLC_FOURCC 0x73 0x64 0x64 0x62

/-- Elementary-stream category (es_format_t.i_cat). -/
inductive EsCat
  | video
  | audio
  | spu
  | unknown
deriving DecidableEq

/-- Reassembly payload kind of a PID (ts_es_data_type_t). -/
inductive TsEsDataType
  | pes
  | tableSection
deriving DecidableEq

/-- Block (block_t): byte buffer plus the properties ts.c touches. -/
structure TsBlock where
  p_buffer : List Nat
  corrupted : Bool := false
  i_dts : Int := VLC_TS_INVALID
  i_pts : Int := VLC_TS_INVALID
  i_length : Int := 0
deriving DecidableEq

/-- Elementary-stream state (ts_es_t plus its es_format_t fields). -/
structure ts_es_t where
  fmt_cat : EsCat := EsCat.unknown
  fmt_codec : Nat := 0
  fmt_group : Int := 0
  id : Bool := false
  p_data : List TsBlock := []
  i_data_size : Nat := 0
  i_data_gathered : Nat := 0
  data_type : TsEsDataType := TsEsDataType.pes
  mpeg4desc_extra : Option (List Nat) := none
deriving DecidableEq

/-- Per-PID state (ts_pid_t). -/
structure ts_pid_t where
  i_pid : Nat := 0
  b_valid : Bool := false
  b_seen : Bool := false
  psi : Bool := false
  i_cc : Nat := 0xff
  b_scrambled : Bool := false
  es : ts_es_t := {}
  i_extra_es : Nat := 0
  i_owner_number : Int := 0
  owner_pcr : Option Int := none
deriving DecidableEq

/-- Program reference as seen by PCRHandle (ts_prg_psi_t fields). -/
structure prg_ref where
  i_number : Int
  i_pid_pcr : Int
  i_pcr_value : Int
deriving DecidableEq

/-- One entry of p_sys->pmt: its programs and whether some valid ES
pid in the 8192-entry table is owned by this PMT (the inner scan of
PCRHandle). -/
structure pmt_ref where
  prgs : List prg_ref
  b_has_es : Bool
deriving DecidableEq

/-- Session state (the demux_sys_t fields used by the embedded
functions) together with the stream position (stream_Tell). -/
structure demux_sys_t where
  pos : Int := 0
  b_trust_pcr : Bool := true
  i_pmt_es : Int := 0
  i_pid_ref_pcr : Int := -1
  i_current_pcr : Int := -1
  i_first_pcr : Int := -1
  i_last_pcr : Int := -1
  p_pcrs : Nat → Int := fun _ => 0
  p_pos : Nat → Int := fun _ => 0
  i_pcrs_num : Nat := 10
  i_packet_size : Int := 188
  b_force_seek_per_percent : Bool := false
  b_dvb_meta : Bool := true
  b_access_control : Bool := true
  i_ts_read : Nat := 50
  pmts : List pmt_ref := []

/-- Events visible at the module boundary: es_out operations and the
warnings ts.c logs (msg_Warn calls the claims refer to). -/
inductive TsEvent
  | warnContinuity (pid : Nat) (received expected : Nat)
  | warnDiscontinuity (pid : Nat)
  | warnScrambledChange (pid : Nat)
  | warnInvalidHeader (pid : Nat)
  | warnTooMuchStuffing (pid : Nat)
  | warnEmptyPes (pid : Nat)
  | warnPidUnknown (pid : Nat)
  | esOutSend (pid : Nat) (blk : TsBlock)
  | esOutSendExtra (pid : Nat) (blk : TsBlock)
  | esOutSetScrambled (pid : Nat) (b : Bool)
  | esOutGroupPcr (group : Int) (value : Int)
  | esOutAdd (pid : Nat) (cat : EsCat) (codec : Nat)
  | esOutDelGroup (group : Int)
  | psiPush (pid : Nat)
deriving DecidableEq

/-! ## Block-chain helpers (block_helper.h operations used by ts.c) -/

/-- block_ChainExtract: copy the first n bytes of a block chain into
a flat buffer (missing bytes are left as 0, standing for the
untouched local array in the C caller). -/
def block_ChainExtract (chain : List TsBlock) (n : Nat) : List Nat :=
  let l := ((chain.map TsBlock.p_buffer).flatten).take n
  l ++ List.replicate (n - l.length) 0

/-- block_ChainGather: concatenate a chain into a single block that
keeps the first block's properties. -/
def block_ChainGather (chain : List TsBlock) : TsBlock :=
  match chain with
  | [] => { p_buffer := [] }
  | b :: rest =>
    { b with p_buffer := b.p_buffer ++ ((rest.map TsBlock.p_buffer).flatten) }

/-- pesSkipHeader: the ParsePES loop that releases whole blocks while
i_skip covers them and advances the start of the first surviving
block. -/
def pesSkipHeader : List TsBlock → Nat → List TsBlock
  | [], _ => []
  | l, 0 => l
  | b :: rest, skip + 1 =>
    if b.p_buffer.length ≤ skip + 1 then
      pesSkipHeader rest (skip + 1 - b.p_buffer.length)
    else
      ({ b with p_buffer := b.p_buffer.drop (skip + 1) }) :: rest

/-- GetWBE at an offset of a byte list. -/
def GetWBE (l : List Nat) (i : Nat) : Nat :=
  ((l.getD i 0) <<< 8) ||| l.getD (i + 1) 0

/-- GetDWBE at an offset of a byte list. -/
def GetDWBE (l : List Nat) (i : Nat) : Nat :=
  ((l.getD i 0) <<< 24) ||| ((l.getD (i + 1) 0) <<< 16) |||
    ((l.getD (i + 2) 0) <<< 8) ||| l.getD (i + 3) 0

/-! ## ParsePES (ts.c lines 1663-1911) -/

/-- Decoding of a 5-byte 33-bit PTS/DTS field as in ParsePES. -/
def ptsDecode (a b c d e : Nat) : Int :=
  Int.ofNat (((a &&& 0x0e) <<< 29) ||| (b <<< 22) ||| ((c &&& 0xfe) <<< 14) |||
    (d <<< 7) ||| (e >>> 1))

/-- Stream ids handled with a bare 6-byte header (the first switch of
ParsePES). -/
def pesSpecialSids : List Nat := [0xBC, 0xBE, 0xBF, 0xF0, 0xF1, 0xFF, 0xF2, 0xF8]

/-- MPEG-1 stuffing-byte scan: advance while the header byte is 0xff,
up to offset 23 (started at 6 with 17 steps remaining). -/
def mp1StuffSkip (hdr : Nat → Nat) : Nat → Nat → Nat
  | i, 0 => i
  | i, r + 1 => if hdr i == 0xff then mp1StuffSkip hdr (i + 1) r else i

/-- Parse of the PES header (stream-id switch plus the MPEG-2 and
MPEG-1 timestamp paths): yields (header size to skip, pts, dts) with
-1 for an absent timestamp, or none for the "too much MPEG-1
stuffing" error. -/
def pesHeaderParse (hdr : Nat → Nat) : Option (Nat × Int × Int) :=
  if hdr 3 ∈ pesSpecialSids then
    some (6, -1, -1)
  else if hdr 6 &&& 0xC0 == 0x80 then
    let skip := hdr 8 + 9
    if Nat.testBit (hdr 7) 7 then
      let pts := ptsDecode (hdr 9) (hdr 10) (hdr 11) (hdr 12) (hdr 13)
      if Nat.testBit (hdr 7) 6 then
        some (skip, pts, ptsDecode (hdr 14) (hdr 15) (hdr 16) (hdr 17) (hdr 18))
      else
        some (skip, pts, -1)
    else
      some (skip, -1, -1)
  else
    let sk := mp1StuffSkip hdr 6 17
    if sk == 23 then
      none
    else
      let sk2 := if hdr sk &&& 0xC0 == 0x40 then sk + 2 else sk
      if Nat.testBit (hdr sk2) 5 then
        let pts := ptsDecode (hdr sk2) (hdr (sk2 + 1)) (hdr (sk2 + 2))
          (hdr (sk2 + 3)) (hdr (sk2 + 4))
        if Nat.testBit (hdr sk2) 4 then
          some (sk2 + 10, pts, ptsDecode (hdr (sk2 + 5)) (hdr (sk2 + 6))
            (hdr (sk2 + 7)) (hdr (sk2 + 8)) (hdr (sk2 + 9)))
        else
          some (sk2 + 5, pts, -1)
      else
        some (sk2 + 1, -1, -1)

/-- Opus au_size accumulation loop of Opus_Parse. -/
def opusAuSize : List Nat → Nat × List Nat
  | [] => (0, [])
  | c :: rest =>
    if c == 0xff then
      let r := opusAuSize rest
      (c + r.1, r.2)
    else (c, rest)

/-- read_opus_flag consumption: two bytes when available (the decoded
value feeds only the trim bookkeeping, see Opus_Parse below). -/
def opusSkipFlag (buf : List Nat) : List Nat :=
  if buf.length < 2 then buf else buf.drop 2

/-- Opus_Parse access-unit splitting loop.  Byte segmentation and
property copying are embedded; the start/end-trim sample bookkeeping
is not, because it is computed through opus_frame_duration(), an
external library helper outside this repository (au->i_length is
modelled as 0).  Each iteration consumes at least 3 bytes, so fuel
equal to the buffer length never runs out before the C loop ends. -/
def opusLoop (props : TsBlock) : List Nat → Nat → List TsBlock
  | _, 0 => []
  | buf, fuel + 1 =>
    if buf.length > 3 ∧ ((buf.getD 0 0 <<< 3) ||| (buf.getD 1 0 >>> 5)) = 0x3ff then
      let b1 := buf.getD 1 0
      let startTrim := Nat.testBit b1 4
      let endTrim := Nat.testBit b1 3
      let ctrlExt := Nat.testBit b1 2
      let buf1 := buf.drop 2
      let r := opusAuSize buf1
      let auSize := r.1
      let buf2 := r.2
      let buf3 := if startTrim then opusSkipFlag buf2 else buf2
      let buf4 := if endTrim then opusSkipFlag buf3 else buf3
      match (if ctrlExt ∧ buf4.length > 0 then
               let l := buf4.getD 0 0
               let rest := buf4.drop 1
               if l > rest.length then none else some (rest.drop l)
             else some buf4) with
      | none => []
      | some buf5 =>
        if auSize = 0 ∨ auSize > buf5.length then []
        else
          { props with p_buffer := buf5.take auSize, i_length := 0 } ::
            opusLoop props (buf5.drop auSize) fuel
    else []

def Opus_Parse (blk : TsBlock) : List TsBlock :=
  opusLoop blk blk.p_buffer blk.p_buffer.length

/-- Events emitted when ParsePES hands the finished blocks to the
output sink: one duplicate per extra sub-stream, the group-PCR
control when in-stream PCRs are not trusted, then the main send. -/
def pesSendEvents (b_trust_pcr : Bool) (pid : ts_pid_t)
    (blocks : List TsBlock) : List TsEvent :=
  blocks.foldr
    (fun blk acc =>
      (List.replicate pid.i_extra_es (TsEvent.esOutSendExtra pid.i_pid blk)) ++
        (if ¬ b_trust_pcr then
          [TsEvent.esOutGroupPcr pid.i_owner_number blk.i_pts] else []) ++
        [TsEvent.esOutSend pid.i_pid blk] ++ acc)
    []

/-- Codec-specific extra header-skip computation of ParsePES: yields
(i_skip, i_length, i_pes_size).  The A52/DTS "b" variants skip 4 more
bytes, the LPCM/SPU/SDDS "b" variants one more, and SUBT streams with
an MPEG-4 decoder config read display length / PES size words. -/
def pesCodecAdjust (c : Nat) (mp4extra : Option (List Nat)) (skip0 : Nat)
    (hb : List Nat) : Nat × Int × Nat :=
  if c = VLC_CODEC_A52B ∨ c = VLC_CODEC_DTSB then
    (skip0 + 4, (0 : Int), (0 : Nat))
  else if c = VLC_CODEC_LPCB ∨ c = VLC_CODEC_SPUB ∨ c = VLC_CODEC_SDDB then
    (skip0 + 1, 0, 0)
  else if c = VLC_CODEC_SUBT ∧ mp4extra ≠ none then
    let extra := mp4extra.getD []
    let r2 :=
      if 2 < extra.length ∧ extra.getD 0 0 = 0x10 ∧
          Nat.testBit (extra.getD 1 0) 4 then
        (skip0 + 2,
         if hb.length + 2 ≤ skip0 then (GetWBE hb skip0 : Int) else 0)
      else (skip0, 0)
    let ps := if hb.length + 2 ≤ r2.1 then GetWBE hb r2.1 else 0
    (r2.1 + 2, r2.2, ps)
  else (skip0, 0, 0)

/-- Codec-specific trailing fixups of ParsePES: SUBT truncation plus
null terminator, teletext PCR-based PTS fallback, ARIB null
terminator, Opus access-unit splitting; all other codecs deliver the
gathered block as is. -/
def pesCodecBlocks (c : Nat) (owner_pcr : Option Int) (i_pes_size : Nat)
    (p_block : TsBlock) : List TsBlock :=
  if c = VLC_CODEC_SUBT then
    let b1 :=
      if i_pes_size > 0 ∧ p_block.p_buffer.length > i_pes_size then
        { p_block with p_buffer := p_block.p_buffer.take i_pes_size }
      else p_block
    [{ b1 with p_buffer := b1.p_buffer ++ [0] }]
  else if c = VLC_CODEC_TELETEXT then
    if p_block.i_pts ≤ VLC_TS_INVALID then
      match owner_pcr with
      | some pcr =>
        if pcr > VLC_TS_INVALID then
          [{ p_block with i_pts := VLC_TS_0 + Int.tdiv (pcr * 100) 9 + 40000 }]
        else [p_block]
      | none => [p_block]
    else [p_block]
  else if c = VLC_CODEC_ARIB_A ∨ c = VLC_CODEC_ARIB_C then
    if p_block.i_pts ≤ VLC_TS_INVALID then
      let b1 :=
        if i_pes_size > 0 ∧ p_block.p_buffer.length > i_pes_size then
          { p_block with p_buffer := p_block.p_buffer.take i_pes_size }
        else p_block
      [{ b1 with p_buffer := b1.p_buffer ++ [0] }]
    else [p_block]
  else if c = VLC_CODEC_OPUS then Opus_Parse p_block
  else [p_block]

/-- ParsePES: strip the PES header off the gathered chain, decode the
PTS/DTS pair, apply the codec-specific fixups, and deliver the
resulting blocks.  The delivered blocks appear as events; a dropped
chain (scrambled, bad start code, stuffing overflow, empty payload)
delivers nothing. -/
def ParsePES (b_trust_pcr : Bool) (pid : ts_pid_t) (p_pes : List TsBlock) :
    List TsEvent :=
  let header := block_ChainExtract p_pes 34
  let hdr := fun i => header.getD i 0
  if pid.b_scrambled ∨ ¬ (hdr 0 = 0 ∧ hdr 1 = 0 ∧ hdr 2 = 1) then
    if pid.b_scrambled then [] else [TsEvent.warnInvalidHeader pid.i_pid]
  else
    match pesHeaderParse hdr with
    | none => [TsEvent.warnTooMuchStuffing pid.i_pid]
    | some (skip0, pts, dts0) =>
      let c := pid.es.fmt_codec
      let hb := match p_pes with
        | [] => []
        | b :: _ => b.p_buffer
      let r3 := pesCodecAdjust c pid.es.mpeg4desc_extra skip0 hb
      let i_skip := r3.1
      let i_length : Int := r3.2.1
      let i_pes_size : Nat := r3.2.2
      let chain1 := pesSkipHeader p_pes i_skip
      let dts := if pts ≥ 0 ∧ dts0 < 0 then pts else dts0
      match chain1 with
      | [] => [TsEvent.warnEmptyPes pid.i_pid]
      | f :: rest =>
        let f1 := { f with
          i_dts := if dts ≥ 0 then VLC_TS_0 + Int.tdiv (dts * 100) 9 else f.i_dts,
          i_pts := if pts ≥ 0 then VLC_TS_0 + Int.tdiv (pts * 100) 9 else f.i_pts,
          i_length := Int.tdiv (i_length * 100) 9 }
        let p_block := block_ChainGather (f1 :: rest)
        let blocks := pesCodecBlocks c pid.owner_pcr i_pes_size p_block
        pesSendEvents b_trust_pcr pid blocks

/-- Rewrite for pesCodecAdjust at a codec with no extra header
bytes. -/
lemma pesCodecAdjust_plain (c : Nat) (mp4 : Option (List Nat))
    (skip0 : Nat) (hb : List Nat)
    (h1 : ¬ c = VLC_CODEC_A52B) (h2 : ¬ c = VLC_CODEC_DTSB)
    (h3 : ¬ c = VLC_CODEC_LPCB) (h4 : ¬ c = VLC_CODEC_SPUB)
    (h5 : ¬ c = VLC_CODEC_SDDB) (h6 : ¬ c = VLC_CODEC_SUBT) :
    pesCodecAdjust c mp4 skip0 hb = (skip0, 0, 0) := by
  simp [pesCodecAdjust, h1, h2, h3, h4, h5, h6]

/-- Rewrite for pesCodecBlocks at a codec without trailing fixups. -/
lemma pesCodecBlocks_plain (c : Nat) (op : Option Int) (sz : Nat)
    (blk : TsBlock)
    (h6 : ¬ c = VLC_CODEC_SUBT) (h7 : ¬ c = VLC_CODEC_TELETEXT)
    (h8 : ¬ c = VLC_CODEC_ARIB_A) (h9 : ¬ c = VLC_CODEC_ARIB_C)
    (h10 : ¬ c = VLC_CODEC_OPUS) :
    pesCodecBlocks c op sz blk = [blk] := by
  simp [pesCodecBlocks, h6, h7, h8, h9, h10]

/-- Rewrite for pesCodecBlocks on a teletext stream missing its PTS
with a known program PCR. -/
lemma pesCodecBlocks_teletext (op : Option Int) (sz : Nat) (blk : TsBlock)
    (pcr : Int) (hp : op = some pcr) (hpts : blk.i_pts ≤ VLC_TS_INVALID)
    (hpcr : VLC_TS_INVALID < pcr) :
    pesCodecBlocks VLC_CODEC_TELETEXT op sz blk =
      [{ blk with i_pts := VLC_TS_0 + Int.tdiv (pcr * 100) 9 + 40000 }] := by
  have c6 : ¬ (VLC_CODEC_TELETEXT = VLC_CODEC_SUBT) := by decide
  simp [pesCodecBlocks, hp, hpts, hpcr, c6]

/-! ## ParseTableSection, ParseData (ts.c lines 1913-1983) -/

/-- SCTE-27 embedded display time extraction of ParseTableSection. -/
def scte27AdjustDate (content : List Nat) (i_date : Int) : Int :=
  if content.length > 9 ∧ content.getD 0 0 = 0xc6 then
    let r :=
      if Nat.testBit (content.getD 3 0) 6 then
        ((((content.getD 7 0) &&& 0x0f) <<< 8) ||| content.getD 8 0, 9)
      else ((0 : Nat), (4 : Nat))
    if r.1 = 0 ∧ content.length > r.2 + 8 then
      if ¬ Nat.testBit (content.getD (r.2 + 3) 0) 6 then
        let di : Int := Int.ofNat (GetDWBE content (r.2 + 4))
        if di < i_date then di + ((1 : Int) <<< 32) else di
      else i_date
    else i_date
  else i_date

/-- ParseTableSection: gather the chain, stamp it with the owning
program's last PCR-derived date when one is known (SCTE-27 sections
re-derive an embedded display time), and deliver it. -/
def ParseTableSection (pid : ts_pid_t) (p_data : List TsBlock) : List TsEvent :=
  let p_content := block_ChainGather p_data
  let i_date : Int := pid.owner_pcr.getD (-1)
  let p_content2 :=
    if i_date ≥ 0 then
      let d :=
        if pid.es.fmt_codec = VLC_CODEC_SCTE_27 then
          scte27AdjustDate p_content.p_buffer i_date
        else i_date
      { p_content with
        i_dts := VLC_TS_0 + Int.tdiv (d * 100) 9,
        i_pts := VLC_TS_0 + Int.tdiv (d * 100) 9 }
    else p_content
  [TsEvent.esOutSend pid.i_pid p_content2]

/-- ParseData: detach the gathered chain from the PID (resetting the
declared size and gathered count) and dispatch it to the PES or
table-section finalizer. -/
def ParseData (b_trust_pcr : Bool) (pid : ts_pid_t) : ts_pid_t × List TsEvent :=
  let p_data := pid.es.p_data
  let pid1 := { pid with es := { pid.es with
    p_data := [], i_data_size := 0, i_data_gathered := 0 } }
  match pid.es.data_type with
  | TsEsDataType.pes => (pid1, ParsePES b_trust_pcr pid1 p_data)
  | TsEsDataType.tableSection => (pid1, ParseTableSection pid1 p_data)

/-! ## GetPCR, PCRHandle (ts.c lines 2070-2088, 2323-2366) -/

/-- GetPCR: decode the 33-bit PCR from the adaptation field when the
adaptation-field flag, the PCR flag and a sufficient length are
present; -1 otherwise. -/
def GetPCR (pkt : List Nat) : Int :=
  let p := fun i => pkt.getD i 0
  if Nat.testBit (p 3) 5 ∧ Nat.testBit (p 5) 4 ∧ p 4 ≥ 7 then
    Int.ofNat (((p 6) <<< 25) ||| ((p 7) <<< 17) ||| ((p 8) <<< 9) |||
      ((p 9) <<< 1) ||| ((p 10) >>> 7))
  else -1

/-- Inner program scan of PCRHandle: store the PCR value into every
program of one PMT whose PCR PID matches, reporting the (last)
matching group number. -/
def pcrInner (pidN : Nat) (i_pcr : Int) : List prg_ref → List prg_ref × Option Int
  | [] => ([], none)
  | prg :: rest =>
    let r := pcrInner pidN i_pcr rest
    if (pidN : Int) = prg.i_pid_pcr then
      (({ prg with i_pcr_value := i_pcr }) :: r.1,
        match r.2 with
        | some g => some g
        | none => some prg.i_number)
    else (prg :: r.1, r.2)

/-- Outer PMT scan of PCRHandle: stops after the first PMT owning the
matching program; the group-PCR control fires for that PMT when the
demuxer trusts in-stream PCRs, the group number is positive, and the
PMT owns some valid elementary-stream PID. -/
def pcrOuter (pidN : Nat) (i_pcr : Int) (b_trust : Bool) :
    List pmt_ref → List pmt_ref × List TsEvent
  | [] => ([], [])
  | pm :: rest =>
    let r := pcrInner pidN i_pcr pm.prgs
    match r.2 with
    | some g =>
      (({ pm with prgs := r.1 }) :: rest,
        if b_trust ∧ g > 0 ∧ pm.b_has_es then
          [TsEvent.esOutGroupPcr g (VLC_TS_0 + Int.tdiv (i_pcr * 100) 9)]
        else [])
    | none =>
      let ro := pcrOuter pidN i_pcr b_trust rest
      (pm :: ro.1, ro.2)

/-- PCRHandle: ignore packets while no elementary stream is
registered or no PCR is present; update the session clock when the
packet's PID is the timing reference; attribute the PCR to the
program naming this PID as its PCR PID. -/
def PCRHandle (sys : demux_sys_t) (pid : ts_pid_t) (pkt : List Nat) :
    demux_sys_t × List TsEvent :=
  if sys.i_pmt_es ≤ 0 then (sys, [])
  else
    let i_pcr := GetPCR pkt
    if i_pcr < 0 then (sys, [])
    else
      let sys1 :=
        if sys.i_pid_ref_pcr = (pid.i_pid : Int) then
          { sys with i_current_pcr :=
              AdjustPCRWrapAround sys.p_pcrs sys.p_pos sys.i_pcrs_num sys.pos i_pcr }
        else sys
      let r := pcrOuter pid.i_pid i_pcr sys1.b_trust_pcr sys1.pmts
      ({ sys1 with pmts := r.1 }, r.2)

/-! ## GatherData (ts.c lines 2368-2569) -/

/-- Flag the pending chain corrupted: ts.c sets BLOCK_FLAG_CORRUPTED
on pid->es->p_data, the first block of the chain. -/
def markHeadCorrupted (es : ts_es_t) : ts_es_t :=
  match es.p_data with
  | [] => es
  | b :: rest => { es with p_data := ({ b with corrupted := true }) :: rest }

/-- Unit-start half of GatherData (after the payload pointer has been
advanced past the TS header): handle the table-section pointer
field, finalize any pending chain, start the new one, record the
declared length (6 + PES length when non-zero, 3 + section length),
and finalize immediately when the gathered bytes already reach it. -/
def gatherUnitStart (b_trust_pcr : Bool) (pid : ts_pid_t) (payload : List Nat) :
    Bool × ts_pid_t × List TsEvent :=
  let r0 :=
    if pid.es.data_type = TsEsDataType.tableSection ∧ payload.length > 0 then
      let ptrField := min (payload.getD 0 0) (payload.length - 1)
      ({ pid with es := { pid.es with p_data :=
          pid.es.p_data ++ [({ p_buffer := (payload.drop 1).take ptrField } : TsBlock)] } },
       payload.drop (1 + ptrField))
    else (pid, payload)
  let pidA := r0.1
  let payload1 := r0.2
  let retA := pidA.es.p_data ≠ []
  let r1 := if pidA.es.p_data ≠ [] then ParseData b_trust_pcr pidA
    else (pidA, ([] : List TsEvent))
  let pidB := r1.1
  let evFin1 := r1.2
  let pidC := { pidB with es := { pidB.es with
    p_data := pidB.es.p_data ++ [({ p_buffer := payload1 } : TsBlock)] } }
  let pidD :=
    if pidC.es.data_type = TsEsDataType.pes then
      if payload1.length > 6 then
        let sz := GetWBE payload1 4
        { pidC with es := { pidC.es with
            i_data_size := if sz > 0 then sz + 6 else sz } }
      else pidC
    else
      if payload1.length > 3 ∧ payload1.getD 0 0 ≠ 0xff then
        { pidC with es := { pidC.es with i_data_size :=
            3 + ((((payload1.getD 1 0) &&& 0xf) <<< 8) ||| payload1.getD 2 0) } }
      else pidC
  let pidE := { pidD with es := { pidD.es with
    i_data_gathered := pidD.es.i_data_gathered + payload1.length } }
  if pidE.es.i_data_size > 0 ∧ pidE.es.i_data_gathered ≥ pidE.es.i_data_size then
    let r2 := ParseData b_trust_pcr pidE
    (true, r2.1, evFin1 ++ r2.2)
  else
    (retA, pidE, evFin1)

/-- Continuation half of GatherData: drop the payload when no
reassembly is pending, otherwise append it and finalize as soon as
the gathered bytes reach a non-zero declared length. -/
def gatherContinuation (b_trust_pcr : Bool) (pid : ts_pid_t)
    (payload : List Nat) : Bool × ts_pid_t × List TsEvent :=
  if pid.es.p_data = [] then
    (false, pid, [])
  else
    let pidC := { pid with es := { pid.es with
      p_data := pid.es.p_data ++ [({ p_buffer := payload } : TsBlock)],
      i_data_gathered := pid.es.i_data_gathered + payload.length } }
    if pidC.es.i_data_size > 0 ∧ pidC.es.i_data_gathered ≥ pidC.es.i_data_size then
      let r := ParseData b_trust_pcr pidC
      (true, r.1, r.2)
    else
      (false, pidC, [])

/-- GatherData: per-packet processing of an elementary-stream PID:
transport-error taint, adaptation-field scan, continuity-counter
check (with its taint policy), PCR handling, scrambled-state
tracking and payload reassembly.  CSA descrambling is not modelled
(the p_sys->csa == NULL path of the source).  Returns (frame
delivered, session state, PID state, events). -/
def GatherData (sys : demux_sys_t) (pid : ts_pid_t) (pkt : List Nat) :
    Bool × demux_sys_t × ts_pid_t × List TsEvent :=
  let p := fun i => pkt.getD i 0
  let b_unit_start := Nat.testBit (p 1) 6
  let b_scrambled := Nat.testBit (p 3) 7
  let b_adaptation := Nat.testBit (p 3) 5
  let b_payload := Nat.testBit (p 3) 4
  let i_cc := (p 3) % 16
  let pk0 := pkt.take 188
  let pid1 :=
    if Nat.testBit (p 1) 7 then { pid with es := markHeadCorrupted pid.es }
    else pid
  let i_skip := if ¬ b_adaptation then 4 else 5 + p 4
  let b_discontinuity := b_adaptation ∧ p 4 > 0 ∧ Nat.testBit (p 5) 7
  let evDisc :=
    if b_discontinuity ∧ pid1.es.p_data ≠ [] then
      [TsEvent.warnDiscontinuity pid.i_pid]
    else []
  let i_diff := (i_cc + 256 - pid1.i_cc) % 16
  let rcc :=
    if b_payload ∧ i_diff = 1 then
      ({ pid1 with i_cc := (pid1.i_cc + 1) % 16 }, ([] : List TsEvent))
    else if pid1.i_cc = 0xff then
      ({ pid1 with i_cc := i_cc }, [])
    else if i_diff ≠ 0 ∧ ¬ b_discontinuity then
      let pidx := { pid1 with i_cc := i_cc }
      ((if pidx.es.p_data ≠ [] ∧ pidx.es.fmt_cat ≠ EsCat.video ∧
            pidx.es.fmt_cat ≠ EsCat.audio then
          { pidx with es := markHeadCorrupted pidx.es }
        else pidx),
       [TsEvent.warnContinuity pid.i_pid i_cc ((pid1.i_cc + 1) % 16)])
    else (pid1, [])
  let pid2 := rcc.1
  let evCC := rcc.2
  let rp := PCRHandle sys pid2 pk0
  let sys1 := rp.1
  let evPcr := rp.2
  if 188 ≤ i_skip ∨ pid2.es.id = false then
    (false, sys1, pid2, evDisc ++ evCC ++ evPcr)
  else
    let rscr :=
      if pid2.b_scrambled ≠ b_scrambled then
        ({ pid2 with b_scrambled := b_scrambled },
         TsEvent.warnScrambledChange pid.i_pid ::
           (List.replicate pid2.i_extra_es
             (TsEvent.esOutSetScrambled pid.i_pid b_scrambled) ++
            [TsEvent.esOutSetScrambled pid.i_pid b_scrambled]))
      else (pid2, [])
    let pid3 := rscr.1
    let evScr := rscr.2
    let payload := pk0.drop i_skip
    let rg :=
      if b_unit_start then gatherUnitStart sys1.b_trust_pcr pid3 payload
      else gatherContinuation sys1.b_trust_pcr pid3 payload
    (rg.1, sys1, rg.2.1, evDisc ++ evCC ++ evPcr ++ evScr ++ rg.2.2)

/-! ## C1: continuity-counter mismatch policy -/

lemma tsHeaderByteBits (m : Nat) (hm : m < 16) :
    Nat.testBit (16 + m) 7 = false ∧ Nat.testBit (16 + m) 6 = false ∧
      Nat.testBit (16 + m) 5 = false ∧ Nat.testBit (16 + m) 4 = true ∧
      (16 + m) % 16 = m := by
  have h : ∀ m, m < 16 → Nat.testBit (16 + m) 7 = false ∧
      Nat.testBit (16 + m) 6 = false ∧ Nat.testBit (16 + m) 5 = false ∧
      Nat.testBit (16 + m) 4 = true ∧ (16 + m) % 16 = m := by decide
  exact h m hm

/-- Session state for the continuity scenarios: a fresh session with
no registered elementary stream counted yet. -/
def sysC1 : demux_sys_t := {}

/-- Audio PID in mid-reassembly: counter seeded at 3, one pending
block. -/
def pidC1 : ts_pid_t :=
  { i_pid := 100, b_valid := true, i_cc := 3,
    es := { fmt_cat := EsCat.audio, fmt_codec := VLC_CODEC_MPGA, id := true,
            p_data := [{ p_buffer := [1, 2, 3] }], i_data_gathered := 3,
            data_type := TsEsDataType.pes } }

/-- Payload-bearing continuation packet on PID 100 with continuity
counter 5 (an increment of +2 after 3), no adaptation field. -/
def pktC1 : List Nat := [0x47, 0, 100, 0x15] ++ List.replicate 184 0

/-- C1 counterexample: on a continuity jump 3 -> 5 (payload present,
no discontinuity indicator) on an audio PID with a pending buffer,
the mismatch is logged but the buffer is NOT flagged corrupted: the
code flags only non-audio/video buffers (ts.c line 2460 requires
i_cat != VIDEO_ES and i_cat != AUDIO_ES), the opposite of the
claimed policy. -/
theorem C1_counterexample :
    pidC1.es.fmt_cat = EsCat.audio ∧
      (GatherData sysC1 pidC1 pktC1).2.2.2 =
        [TsEvent.warnContinuity 100 5 4] ∧
      (GatherData sysC1 pidC1 pktC1).2.2.1.es.p_data.map TsBlock.corrupted =
        [false, false] := by
  refine ⟨rfl, by decide, by decide⟩

set_option maxRecDepth 20000 in
/-- C1 (amended): on a continuity-counter mismatch (increment other
than +1 mod 16 on a payload-bearing packet, counter already seeded,
no adaptation field hence no discontinuity indicator) the packet
gatherer logs the mismatch, and flags the in-flight buffer corrupted
exactly when the stream's category is NOT audio and NOT video;
audio/video buffers are deliberately left unflagged ("small
audio/video artifacts are usually better than dropping full
frames").  A duplicate counter (increment 0) with payload present
produces no continuity error and no taint. -/
theorem C1_continuity_taint :
    (∀ (cat : EsCat) (b : TsBlock) (bs : List TsBlock) (icc m g : Nat)
        (dt : TsEsDataType),
      icc < 16 → m < 16 →
      (m + 256 - icc) % 16 ≠ 0 → (m + 256 - icc) % 16 ≠ 1 →
      (GatherData sysC1
          { i_pid := 100, b_valid := true, i_cc := icc,
            es := { fmt_cat := cat, id := true, p_data := b :: bs,
                    i_data_size := 0, i_data_gathered := g, data_type := dt } }
          ([0x47, 0, 100, 16 + m] ++ List.replicate 184 0)).2.2.2 =
        [TsEvent.warnContinuity 100 m ((icc + 1) % 16)] ∧
      ((cat = EsCat.video ∨ cat = EsCat.audio) →
        (GatherData sysC1
          { i_pid := 100, b_valid := true, i_cc := icc,
            es := { fmt_cat := cat, id := true, p_data := b :: bs,
                    i_data_size := 0, i_data_gathered := g, data_type := dt } }
          ([0x47, 0, 100, 16 + m] ++ List.replicate 184 0)).2.2.1.es.p_data.head? =
          some b) ∧
      (cat ≠ EsCat.video → cat ≠ EsCat.audio →
        (GatherData sysC1
          { i_pid := 100, b_valid := true, i_cc := icc,
            es := { fmt_cat := cat, id := true, p_data := b :: bs,
                    i_data_size := 0, i_data_gathered := g, data_type := dt } }
          ([0x47, 0, 100, 16 + m] ++ List.replicate 184 0)).2.2.1.es.p_data.head? =
          some { b with corrupted := true })) ∧
    (∀ (cat : EsCat) (b : TsBlock) (bs : List TsBlock) (icc g : Nat)
        (dt : TsEsDataType),
      icc < 16 →
      (GatherData sysC1
          { i_pid := 100, b_valid := true, i_cc := icc,
            es := { fmt_cat := cat, id := true, p_data := b :: bs,
                    i_data_size := 0, i_data_gathered := g, data_type := dt } }
          ([0x47, 0, 100, 16 + icc] ++ List.replicate 184 0)).2.2.2 = [] ∧
      (GatherData sysC1
          { i_pid := 100, b_valid := true, i_cc := icc,
            es := { fmt_cat := cat, id := true, p_data := b :: bs,
                    i_data_size := 0, i_data_gathered := g, data_type := dt } }
          ([0x47, 0, 100, 16 + icc] ++ List.replicate 184 0)).2.2.1.es.p_data.head? =
        some b) := by
  have hs : sysC1.i_pmt_es = 0 := rfl
  constructor
  · intro cat b bs icc m g dt hicc hm h0 h1
    obtain ⟨b7, b6, b5, b4, bmod⟩ := tsHeaderByteBits m hm
    have hne : ¬ (icc = 0xff) := by omega
    rcases cat with _ | _ | _ | _ <;>
      refine ⟨?_, ?_, ?_⟩ <;>
      simp [GatherData, gatherContinuation, PCRHandle, markHeadCorrupted,
        b7, b6, b5, b4, bmod, hs, hne, h0, h1]
  · intro cat b bs icc g dt hicc
    obtain ⟨b7, b6, b5, b4, bmod⟩ := tsHeaderByteBits icc hicc
    have hne : ¬ (icc = 0xff) := by omega
    have hd0 : (icc + 256 - icc) % 16 = 0 := by omega
    constructor <;>
      simp [GatherData, gatherContinuation, PCRHandle, markHeadCorrupted,
        b7, b6, b5, b4, bmod, hs, hne, hd0]

/-- C1 witness: the amended theorem applied to a subtitle PID with a
counter jump 3 -> 5 (buffer tainted) and to an audio PID receiving a
duplicate counter 7 (no error, no taint). -/
theorem C1_witness :
    (GatherData sysC1
        { i_pid := 100, b_valid := true, i_cc := 3,
          es := { fmt_cat := EsCat.spu, id := true,
                  p_data := [{ p_buffer := [9] }],
                  i_data_size := 0, i_data_gathered := 1,
                  data_type := TsEsDataType.pes } }
        ([0x47, 0, 100, 16 + 5] ++ List.replicate 184 0)).2.2.1.es.p_data.head? =
      some { p_buffer := [9], corrupted := true } ∧
    (GatherData sysC1
        { i_pid := 100, b_valid := true, i_cc := 7,
          es := { fmt_cat := EsCat.audio, id := true,
                  p_data := [{ p_buffer := [9] }],
                  i_data_size := 0, i_data_gathered := 1,
                  data_type := TsEsDataType.pes } }
        ([0x47, 0, 100, 16 + 7] ++ List.replicate 184 0)).2.2.2 = [] := by
  constructor
  · exact ((C1_continuity_taint.1 EsCat.spu { p_buffer := [9] } [] 3 5 1
      TsEsDataType.pes (by omega) (by omega) (by decide) (by decide)).2.2
      (by decide) (by decide))
  · exact (C1_continuity_taint.2 EsCat.audio { p_buffer := [9] } [] 7 1
      TsEsDataType.pes (by omega)).1

/-! ## C5: declared-length driven PES/section finalization -/

set_option maxRecDepth 100000 in
/-- Crafted 406-byte PES: 6-byte start-code header declaring PES
length 400 (0x0190), MPEG-2 flags with a PTS-only 5-byte field
encoding 900000 (90 kHz), then 392 payload bytes. -/
def pesC5 : List Nat :=
  [0, 0, 1, 0xE0, 1, 0x90, 0x80, 0x80, 5, 0x21, 0, 55, 119, 65] ++
    List.replicate 392 7

/-- Idle video PID about to receive the crafted PES. -/
def pidC5 : ts_pid_t :=
  { i_pid := 200, b_valid := true,
    es := { fmt_cat := EsCat.video, fmt_codec := VLC_CODEC_MPGV, id := true,
            data_type := TsEsDataType.pes } }

/-- First TS packet (unit start, cc 0): PES bytes 0..183. -/
def pktC5a : List Nat := [0x47, 0x40, 200, 0x10] ++ pesC5.take 184

/-- Second TS packet (cc 1): PES bytes 184..367. -/
def pktC5b : List Nat := [0x47, 0, 200, 0x11] ++ (pesC5.drop 184).take 184

/-- Third TS packet (cc 2): adaptation-field stuffing, then the final
38 PES bytes, so the gathered count lands exactly on the declared
length. -/
def pktC5c : List Nat :=
  [0x47, 0, 200, 0x32, 145, 0] ++ List.replicate 144 0xff ++ pesC5.drop 368

def runC5a := GatherData sysC1 pidC5 pktC5a
def runC5b := GatherData runC5a.2.1 runC5a.2.2.1 pktC5b
def runC5c := GatherData runC5b.2.1 runC5b.2.2.1 pktC5c

/-- Byte list for the declared-length scenarios. -/
def plPesHdr (L : Nat) (body : List Nat) : List Nat :=
  [0, 0, 1, 0xE0, L / 256, L % 256] ++ body

/-- Bit values of the literal TS header bytes used in the C5
scenarios. -/
lemma tsLitBits :
    Nat.testBit 64 6 = true ∧ Nat.testBit 64 7 = false ∧
      Nat.testBit 16 4 = true ∧ Nat.testBit 16 5 = false ∧
      Nat.testBit 16 6 = false ∧ Nat.testBit 16 7 = false ∧
      16 % 16 = 0 := by decide

set_option maxRecDepth 100000 in
/-- C5: the gatherer records the declared target length (6 + the
non-zero 2-byte PES length read at payload bytes 4-5; 3 + section
length for table sections; a zero PES length leaves the target
unset), accumulates continuation packets, and finalizes exactly when
the gathered byte count reaches the target, without waiting for the
next unit-start packet - shown both on a concrete 3-packet PES round
trip (exactly one block of 392 bytes delivered, PTS 900000 decoded
bit-exactly to 10000001 in the microsecond domain, DTS set equal to
it) and as general state transitions. -/
theorem C5_declared_length :
    (runC5a.1 = false ∧ runC5a.2.2.2 = [] ∧
      runC5a.2.2.1.es.i_data_size = 406 ∧
      runC5a.2.2.1.es.i_data_gathered = 184 ∧
      runC5b.1 = false ∧ runC5c.1 = true ∧
      runC5c.2.2.1.es.p_data = [] ∧
      (runC5c.2.2.2.map (fun e => match e with
        | TsEvent.esOutSend _ blk =>
          some (blk.p_buffer.length, blk.i_pts, blk.i_dts)
        | _ => none)) = [some (392, 10000001, 10000001)]) ∧
    (∀ (cat : EsCat) (cod : Nat) (pl : List Nat),
      pl.length = 184 →
      (184 < GetWBE pl 4 + 6 →
        (GatherData sysC1
          { i_pid := 200, b_valid := true,
            es := { fmt_cat := cat, fmt_codec := cod, id := true,
                    data_type := TsEsDataType.pes } }
          ([0x47, 0x40, 200, 0x10] ++ pl)).2.2.1.es.i_data_size =
          (if 0 < GetWBE pl 4 then GetWBE pl 4 + 6 else 0) ∧
        (GatherData sysC1
          { i_pid := 200, b_valid := true,
            es := { fmt_cat := cat, fmt_codec := cod, id := true,
                    data_type := TsEsDataType.pes } }
          ([0x47, 0x40, 200, 0x10] ++ pl)).2.2.1.es.i_data_gathered = 184 ∧
        (GatherData sysC1
          { i_pid := 200, b_valid := true,
            es := { fmt_cat := cat, fmt_codec := cod, id := true,
                    data_type := TsEsDataType.pes } }
          ([0x47, 0x40, 200, 0x10] ++ pl)).1 = false ∧
        (GatherData sysC1
          { i_pid := 200, b_valid := true,
            es := { fmt_cat := cat, fmt_codec := cod, id := true,
                    data_type := TsEsDataType.pes } }
          ([0x47, 0x40, 200, 0x10] ++ pl)).2.2.1.es.p_data =
          [{ p_buffer := pl }]) ∧
      (0 < GetWBE pl 4 → GetWBE pl 4 + 6 ≤ 184 →
        (GatherData sysC1
          { i_pid := 200, b_valid := true,
            es := { fmt_cat := cat, fmt_codec := cod, id := true,
                    data_type := TsEsDataType.pes } }
          ([0x47, 0x40, 200, 0x10] ++ pl)).1 = true ∧
        (GatherData sysC1
          { i_pid := 200, b_valid := true,
            es := { fmt_cat := cat, fmt_codec := cod, id := true,
                    data_type := TsEsDataType.pes } }
          ([0x47, 0x40, 200, 0x10] ++ pl)).2.2.1.es.p_data = [])) ∧
    (∀ (cat : EsCat) (cod : Nat) (c : TsBlock) (cs : List TsBlock)
        (S g icc m : Nat) (pl2 : List Nat),
      pl2.length = 184 → icc < 16 → m < 16 →
      (m + 256 - icc) % 16 = 1 →
      (0 < S → S ≤ g + 184 →
        (GatherData sysC1
          { i_pid := 200, b_valid := true, i_cc := icc,
            es := { fmt_cat := cat, fmt_codec := cod, id := true,
                    p_data := c :: cs, i_data_size := S,
                    i_data_gathered := g, data_type := TsEsDataType.pes } }
          ([0x47, 0, 200, 16 + m] ++ pl2)).1 = true ∧
        (GatherData sysC1
          { i_pid := 200, b_valid := true, i_cc := icc,
            es := { fmt_cat := cat, fmt_codec := cod, id := true,
                    p_data := c :: cs, i_data_size := S,
                    i_data_gathered := g, data_type := TsEsDataType.pes } }
          ([0x47, 0, 200, 16 + m] ++ pl2)).2.2.1.es.p_data = []) ∧
      (g + 184 < S ∨ S = 0 →
        (GatherData sysC1
          { i_pid := 200, b_valid := true, i_cc := icc,
            es := { fmt_cat := cat, fmt_codec := cod, id := true,
                    p_data := c :: cs, i_data_size := S,
                    i_data_gathered := g, data_type := TsEsDataType.pes } }
          ([0x47, 0, 200, 16 + m] ++ pl2)).1 = false ∧
        (GatherData sysC1
          { i_pid := 200, b_valid := true, i_cc := icc,
            es := { fmt_cat := cat, fmt_codec := cod, id := true,
                    p_data := c :: cs, i_data_size := S,
                    i_data_gathered := g, data_type := TsEsDataType.pes } }
          ([0x47, 0, 200, 16 + m] ++ pl2)).2.2.1.es.p_data =
          c :: (cs ++ [{ p_buffer := pl2 }]))) ∧
    (∀ (cat : EsCat) (cod s1 s2 s3 : Nat) (rest : List Nat),
      rest.length = 180 → ¬ (s1 = 0xff) →
      180 < ((s2 &&& 0xf) <<< 8) ||| s3 →
      (GatherData sysC1
        { i_pid := 200, b_valid := true,
          es := { fmt_cat := cat, fmt_codec := cod, id := true,
                  data_type := TsEsDataType.tableSection } }
        ([0x47, 0x40, 200, 0x10] ++
          0 :: s1 :: s2 :: s3 :: rest)).2.2.1.es.i_data_size =
        3 + (((s2 &&& 0xf) <<< 8) ||| s3)) := by
  obtain ⟨l1, l2, l3, l4, l5, l6, l7⟩ := tsLitBits
  refine ⟨by decide, ?_, ?_, ?_⟩
  · intro cat cod pl hlen
    have htd : ([(0x47:Nat), 0x40, 200, 0x10] ++ pl).take 188 =
        [0x47, 0x40, 200, 0x10] ++ pl := by
      apply List.take_of_length_le
      simp [hlen]
    have hdr : (([(0x47:Nat), 0x40, 200, 0x10] ++ pl).take 188).drop 4 = pl := by
      rw [htd]
      exact List.drop_left [0x47, 0x40, 200, 0x10] pl
    have hplt : List.take 184 pl = pl := by
      rw [← hlen, List.take_length]
    constructor
    · intro hbig
      by_cases hsz : 0 < GetWBE pl 4
      · have hnd : ¬ (GetWBE pl 4 + 6 ≤ 184) := by omega
        refine ⟨?_, ?_, ?_, ?_⟩ <;>
          simp [GatherData, gatherUnitStart, PCRHandle, markHeadCorrupted,
            sysC1, l1, l2, l3, l4, l5, l6, l7, Nat.zero_testBit, htd, hdr, hplt, hlen, hsz, hnd]
      · have hz : GetWBE pl 4 = 0 := by omega
        refine ⟨?_, ?_, ?_, ?_⟩ <;>
          simp [GatherData, gatherUnitStart, PCRHandle, markHeadCorrupted,
            sysC1, l1, l2, l3, l4, l5, l6, l7, Nat.zero_testBit, htd, hdr, hplt, hlen, hz]
    · intro hpos hle
      constructor <;>
        simp [GatherData, gatherUnitStart, ParseData, PCRHandle,
          markHeadCorrupted, sysC1, l1, l2, l3, l4, l5, l6, l7,
          Nat.zero_testBit, htd, hdr, hplt, hlen, hpos, hle]
  · intro cat cod c cs S g icc m pl2 hlen hicc hm hdiff
    obtain ⟨b7, b6, b5, b4, bmod⟩ := tsHeaderByteBits m hm
    have hne : ¬ (icc = 0xff) := by omega
    have htd : ([(0x47:Nat), 0, 200, 16 + m] ++ pl2).take 188 =
        [0x47, 0, 200, 16 + m] ++ pl2 := by
      apply List.take_of_length_le
      simp [hlen]
    have hdr : (([(0x47:Nat), 0, 200, 16 + m] ++ pl2).take 188).drop 4 = pl2 := by
      rw [htd]
      exact List.drop_left [0x47, 0, 200, 16 + m] pl2
    have hplt : List.take 184 pl2 = pl2 := by
      rw [← hlen, List.take_length]
    constructor
    · intro hS hreach
      have hge : g + pl2.length ≥ S := by omega
      constructor <;>
        simp [GatherData, gatherContinuation, ParseData, PCRHandle,
          markHeadCorrupted, sysC1, l1, l2, l3, l4, l5, l6, l7,
          Nat.zero_testBit, htd, hdr, hplt, hlen, b7, b6, b5, b4, bmod,
          hdiff, hne, hS, hge, hreach]
    · intro hcase
      rcases hcase with hlt | hzero
      · have hnd : ¬ (S ≤ g + 184) := by omega
        constructor <;>
          simp [GatherData, gatherContinuation, PCRHandle, markHeadCorrupted,
            sysC1, l1, l2, l3, l4, l5, l6, l7, Nat.zero_testBit, htd, hdr, hplt, hlen, b7, b6, b5, b4, bmod, hdiff, hne, hnd]
      · subst hzero
        constructor <;>
          simp [GatherData, gatherContinuation, PCRHandle, markHeadCorrupted,
            sysC1, l1, l2, l3, l4, l5, l6, l7, Nat.zero_testBit, htd, hdr, hplt, hlen, b7, b6, b5, b4, bmod, hdiff, hne]
  · intro cat cod s1 s2 s3 rest hlen hff hsec
    have hnd : ¬ (183 ≥ 3 + (((s2 &&& 0xf) <<< 8) ||| s3)) := by omega
    simp [GatherData, gatherUnitStart, ParseData, ParseTableSection,
      PCRHandle, markHeadCorrupted, block_ChainGather, sysC1,
      l1, l2, l3, l4, l5, l6, l7, Nat.zero_testBit, hlen, hff, hnd,
      List.take_of_length_le, List.getD]

set_option maxRecDepth 40000 in
/-- Unit-start payload for the C5 witness: declares PES length 400. -/
def plC5w : List Nat := [0, 0, 1, 0xE0, 1, 0x90] ++ List.replicate 178 9

set_option maxRecDepth 40000 in
/-- C5 witness: the general parts applied at concrete inputs - a
unit-start payload declaring length 400 sets the target to 406; a
continuation packet reaching a target of 100 finalizes at once; a
section header with length 256 sets the target to 259. -/
theorem C5_witness :
    (GatherData sysC1
        { i_pid := 200, b_valid := true,
          es := { fmt_cat := EsCat.video, fmt_codec := VLC_CODEC_MPGV,
                  id := true, data_type := TsEsDataType.pes } }
        ([0x47, 0x40, 200, 0x10] ++ plC5w)).2.2.1.es.i_data_size = 406 ∧
    (GatherData sysC1
        { i_pid := 200, b_valid := true, i_cc := 0,
          es := { fmt_cat := EsCat.video, fmt_codec := VLC_CODEC_MPGV,
                  id := true, p_data := [{ p_buffer := [1] }] ,
                  i_data_size := 100, i_data_gathered := 0,
                  data_type := TsEsDataType.pes } }
        ([0x47, 0, 200, 16 + 1] ++ List.replicate 184 7)).1 = true ∧
    (GatherData sysC1
        { i_pid := 200, b_valid := true,
          es := { fmt_cat := EsCat.video, fmt_codec := VLC_CODEC_MPGV,
                  id := true, data_type := TsEsDataType.tableSection } }
        ([0x47, 0x40, 200, 0x10] ++
          0 :: 2 :: 1 :: 0 :: List.replicate 180 0)).2.2.1.es.i_data_size =
      259 := by
  refine ⟨?_, ?_, ?_⟩
  · have h := ((C5_declared_length.2.1 EsCat.video VLC_CODEC_MPGV plC5w
      (by decide)).1 (by decide)).1
    rw [h]
    decide
  · exact ((C5_declared_length.2.2.1 EsCat.video VLC_CODEC_MPGV
      { p_buffer := [1] } [] 100 0 0 1 (List.replicate 184 7)
      (by decide) (by decide) (by decide) (by decide)).1 (by decide)
      (by decide)).1
  · have h := C5_declared_length.2.2.2 EsCat.video VLC_CODEC_MPGV 2 1 0
      (List.replicate 180 0) (by decide) (by decide) (by decide)
    rw [h]
    decide

/-! ## C10: PTS/DTS on delivered PES blocks -/

/-- Teletext PID whose owning program has last PCR 900000. -/
def pidTtx : ts_pid_t :=
  { i_pid := 300, b_valid := true,
    es := { fmt_cat := EsCat.spu, fmt_codec := VLC_CODEC_TELETEXT, id := true },
    owner_pcr := some 900000 }

/-- C10 counterexample: a teletext PES with neither PTS nor DTS does
NOT leave both timestamps unset - ParsePES substitutes the owning
program's last PCR (converted to microseconds) plus 40 ms for the
missing PTS (ts.c lines 1850-1866), so the delivered block carries
i_pts = 10040001 while the claim requires it unset. -/
theorem C10_counterexample :
    ParsePES true pidTtx
        [{ p_buffer := [0, 0, 1, 0xBD, 0, 0, 0x80, 0, 0, 1, 2, 3] }] =
      [TsEvent.esOutSend 300
        { p_buffer := [1, 2, 3], i_pts := 10040001 }] ∧
      (10040001 : Int) ≠ VLC_TS_INVALID := by
  exact ⟨by decide, by decide⟩

/-- Reduction of ParsePES on a single-block MPEG-2 PES with no
timestamp flags: the header is stripped and the codec fixups and
sends are left folded. -/
lemma ParsePES_mpeg2_noPts (cat : EsCat) (cod l1 l2 : Nat)
    (body : List Nat) (op : Option Int) (hbody : body ≠ [])
    (h1 : ¬ cod = VLC_CODEC_A52B) (h2 : ¬ cod = VLC_CODEC_DTSB)
    (h3 : ¬ cod = VLC_CODEC_LPCB) (h4 : ¬ cod = VLC_CODEC_SPUB)
    (h5 : ¬ cod = VLC_CODEC_SDDB) (h6 : ¬ cod = VLC_CODEC_SUBT) :
    ParsePES true
      { i_pid := 300, b_valid := true,
        es := { fmt_cat := cat, fmt_codec := cod, id := true },
        owner_pcr := op }
      [{ p_buffer := [0, 0, 1, 0xE0, l1, l2, 0x80, 0, 0] ++ body }] =
      pesSendEvents true
        { i_pid := 300, b_valid := true,
          es := { fmt_cat := cat, fmt_codec := cod, id := true },
          owner_pcr := op }
        (pesCodecBlocks cod op 0 { p_buffer := body }) := by
  have t1 : Nat.testBit 128 7 = true := by decide
  have t2 : Nat.testBit 128 6 = false := by decide
  have t3 : (128 &&& 192 : Nat) = 128 := by decide
  have ea := pesCodecAdjust_plain cod none 9
    (0 :: 0 :: 1 :: 0xE0 :: l1 :: l2 :: 0x80 :: 0 :: 0 :: body)
    h1 h2 h3 h4 h5 h6
  simp [ParsePES, pesHeaderParse, pesSpecialSids, pesSkipHeader,
    block_ChainExtract, block_ChainGather, ea, t1, t2, t3, hbody,
    List.getD]

/-- C10 (amended): for a finalized PES whose MPEG-2 header carries a
PTS but no DTS, the delivered block's DTS is set equal to its PTS,
both converted from the 90 kHz domain by t * 100 / 9 into the
microsecond domain (plus the VLC_TS_0 origin); a PES with neither
timestamp leaves both unset, except that a teletext stream with a
known owning-program PCR receives that PCR (converted) plus 40 ms as
PTS, its DTS staying unset. -/
theorem C10_pts_dts :
    (∀ (cat : EsCat) (cod l1 l2 a b c d e : Nat) (body : List Nat),
      body ≠ [] →
      ¬ (cod = VLC_CODEC_A52B) → ¬ (cod = VLC_CODEC_DTSB) →
      ¬ (cod = VLC_CODEC_LPCB) → ¬ (cod = VLC_CODEC_SPUB) →
      ¬ (cod = VLC_CODEC_SDDB) → ¬ (cod = VLC_CODEC_SUBT) →
      ¬ (cod = VLC_CODEC_TELETEXT) → ¬ (cod = VLC_CODEC_ARIB_A) →
      ¬ (cod = VLC_CODEC_ARIB_C) → ¬ (cod = VLC_CODEC_OPUS) →
      ParsePES true
        { i_pid := 300, b_valid := true,
          es := { fmt_cat := cat, fmt_codec := cod, id := true } }
        [{ p_buffer :=
            [0, 0, 1, 0xE0, l1, l2, 0x80, 0x80, 5, a, b, c, d, e] ++ body }] =
        [TsEvent.esOutSend 300
          { p_buffer := body,
            i_dts := VLC_TS_0 + Int.tdiv (ptsDecode a b c d e * 100) 9,
            i_pts := VLC_TS_0 + Int.tdiv (ptsDecode a b c d e * 100) 9 }]) ∧
    (∀ (cat : EsCat) (cod l1 l2 : Nat) (body : List Nat),
      body ≠ [] →
      ¬ (cod = VLC_CODEC_A52B) → ¬ (cod = VLC_CODEC_DTSB) →
      ¬ (cod = VLC_CODEC_LPCB) → ¬ (cod = VLC_CODEC_SPUB) →
      ¬ (cod = VLC_CODEC_SDDB) → ¬ (cod = VLC_CODEC_SUBT) →
      ¬ (cod = VLC_CODEC_TELETEXT) → ¬ (cod = VLC_CODEC_ARIB_A) →
      ¬ (cod = VLC_CODEC_ARIB_C) → ¬ (cod = VLC_CODEC_OPUS) →
      ParsePES true
        { i_pid := 300, b_valid := true,
          es := { fmt_cat := cat, fmt_codec := cod, id := true } }
        [{ p_buffer := [0, 0, 1, 0xE0, l1, l2, 0x80, 0, 0] ++ body }] =
        [TsEvent.esOutSend 300 { p_buffer := body }]) ∧
    (∀ (cat : EsCat) (l1 l2 : Nat) (body : List Nat) (pcr : Int),
      body ≠ [] → 0 < pcr →
      ParsePES true
        { i_pid := 300, b_valid := true,
          es := { fmt_cat := cat, fmt_codec := VLC_CODEC_TELETEXT, id := true },
          owner_pcr := some pcr }
        [{ p_buffer := [0, 0, 1, 0xE0, l1, l2, 0x80, 0, 0] ++ body }] =
        [TsEvent.esOutSend 300
          { p_buffer := body,
            i_pts := VLC_TS_0 + Int.tdiv (pcr * 100) 9 + 40000 }]) := by
  have t1 : Nat.testBit 128 7 = true := by decide
  have t2 : Nat.testBit 128 6 = false := by decide
  have t3 : (128 &&& 192 : Nat) = 128 := by decide
  refine ⟨?_, ?_, ?_⟩
  · intro cat cod l1 l2 a b c d e body hbody h1 h2 h3 h4 h5 h6 h7 h8 h9 h10
    have hlen : ¬ (([(0:Nat), 0, 1, 0xE0, l1, l2, 0x80, 0x80, 5, a, b, c,
        d, e] ++ body).length ≤ 14) := by
      simp
      exact hbody
    have ea := pesCodecAdjust_plain cod none 14
      (0 :: 0 :: 1 :: 0xE0 :: l1 :: l2 :: 0x80 :: 0x80 :: 5 :: a :: b :: c ::
        d :: e :: body) h1 h2 h3 h4 h5 h6
    have eb := fun blk => pesCodecBlocks_plain cod none 0 blk h6 h7 h8 h9 h10
    simp [ParsePES, pesHeaderParse, pesSpecialSids, pesSkipHeader,
      pesSendEvents, block_ChainExtract, block_ChainGather, ptsDecode,
      ea, eb, t1, t2, t3, hlen, hbody, List.getD]
  · intro cat cod l1 l2 body hbody h1 h2 h3 h4 h5 h6 h7 h8 h9 h10
    rw [ParsePES_mpeg2_noPts cat cod l1 l2 body none hbody h1 h2 h3 h4 h5 h6,
      pesCodecBlocks_plain cod none 0 _ h6 h7 h8 h9 h10]
    simp [pesSendEvents]
  · intro cat l1 l2 body pcr hbody hpcr
    have c1 : ¬ (VLC_CODEC_TELETEXT = VLC_CODEC_A52B) := by decide
    have c2 : ¬ (VLC_CODEC_TELETEXT = VLC_CODEC_DTSB) := by decide
    have c3 : ¬ (VLC_CODEC_TELETEXT = VLC_CODEC_LPCB) := by decide
    have c4 : ¬ (VLC_CODEC_TELETEXT = VLC_CODEC_SPUB) := by decide
    have c5 : ¬ (VLC_CODEC_TELETEXT = VLC_CODEC_SDDB) := by decide
    have c6 : ¬ (VLC_CODEC_TELETEXT = VLC_CODEC_SUBT) := by decide
    rw [ParsePES_mpeg2_noPts cat VLC_CODEC_TELETEXT l1 l2 body (some pcr)
        hbody c1 c2 c3 c4 c5 c6,
      pesCodecBlocks_teletext (some pcr) 0 _ pcr rfl (le_refl _)
        (by simpa [VLC_TS_INVALID] using hpcr)]
    simp [pesSendEvents]
/-- C10 witness: the amended theorem applied to a PES carrying
PTS bytes encoding 900000 and no DTS (both stamps equal 10000001),
to a PES with neither timestamp (both stamps left at
VLC_TS_INVALID), and to the teletext PCR fallback at PCR 900000. -/
theorem C10_witness :
    ParsePES true
        { i_pid := 300, b_valid := true,
          es := { fmt_cat := EsCat.video, fmt_codec := VLC_CODEC_MPGV,
                  id := true } }
        [{ p_buffer :=
            [0, 0, 1, 0xE0, 1, 0x90, 0x80, 0x80, 5, 0x21, 0, 55, 119, 65] ++
              [7, 7] }] =
      [TsEvent.esOutSend 300
        { p_buffer := [7, 7], i_dts := 10000001, i_pts := 10000001 }] ∧
      ParsePES true
        { i_pid := 300, b_valid := true,
          es := { fmt_cat := EsCat.video, fmt_codec := VLC_CODEC_MPGV,
                  id := true } }
        [{ p_buffer := [0, 0, 1, 0xE0, 0, 9, 0x80, 0, 0] ++ [7, 7] }] =
        [TsEvent.esOutSend 300 { p_buffer := [7, 7] }] ∧
      ParsePES true
        { i_pid := 300, b_valid := true,
          es := { fmt_cat := EsCat.spu, fmt_codec := VLC_CODEC_TELETEXT,
                  id := true },
          owner_pcr := some 900000 }
        [{ p_buffer := [0, 0, 1, 0xE0, 0, 9, 0x80, 0, 0] ++ [7, 7] }] =
        [TsEvent.esOutSend 300 { p_buffer := [7, 7], i_pts := 10040001 }] := by
  refine ⟨?_, ?_, ?_⟩
  · have h := C10_pts_dts.1 EsCat.video VLC_CODEC_MPGV 1 0x90 0x21 0 55 119 65
      [7, 7] (by decide) (by decide) (by decide) (by decide) (by decide)
      (by decide) (by decide) (by decide) (by decide) (by decide) (by decide)
    rw [h]
    decide
  · exact C10_pts_dts.2.1 EsCat.video VLC_CODEC_MPGV 0 9 [7, 7] (by decide)
      (by decide) (by decide) (by decide) (by decide) (by decide) (by decide)
      (by decide) (by decide) (by decide) (by decide)
  · have h := C10_pts_dts.2.2 EsCat.spu 0 9 [7, 7] 900000 (by decide)
      (by decide)
    rw [h]
    decide

/-! ## Demux (ts.c lines 945-1011) and C8

The per-invocation driver.  The incoming stream is a list of
packets (ReadTSPacket yielding none models end of stream).  Pushing
PSI bytes into the external libdvbpsi decoder (dvbpsi_PushPacket) is
an outside-the-repository call and appears as a psiPush event; its
table callbacks are embedded separately (PATCallBack, PMTCallBack).
The "first packet for pid" and recording paths produce no events
here.  Open (ts.c line 636) sets i_ts_read = 50; the loop comment
says "at most 100 TS packet". -/

/-- PIDGet: 13-bit packet identifier from header bytes 1-2. -/
def PIDGet (pkt : List Nat) : Nat :=
  (((pkt.getD 1 0) &&& 0x1f) <<< 8) ||| pkt.getD 2 0

/-- Value stored into p_sys->i_ts_read by Open. -/
def open_i_ts_read : Nat := 50

/-- Processing of one packet inside the Demux loop: dispatch on the
PID's classification.  Returns (frame completed, session, pid table,
events). -/
def demuxProcessPacket (sys : demux_sys_t) (pids : Nat → ts_pid_t)
    (pkt : List Nat) : Bool × demux_sys_t × (Nat → ts_pid_t) × List TsEvent :=
  let i := PIDGet pkt
  let pid := pids i
  if pid.b_valid then
    if pid.psi then
      (false, sys, Function.update pids i { pid with b_seen := true },
       [TsEvent.psiPush i])
    else
      let r := GatherData sys pid pkt
      (r.1, r.2.1, Function.update pids i { r.2.2.1 with b_seen := true },
       r.2.2.2)
  else
    let ev := if ¬ pid.b_seen then [TsEvent.warnPidUnknown i] else []
    let r := PCRHandle sys pid pkt
    (false, r.1, Function.update pids i { pid with b_seen := true },
     ev ++ r.2)

/-- The bounded packet loop of Demux: processes up to the remaining
budget, stopping early on a completed frame or, when the call
started with no registered elementary stream, as soon as one gets
registered.  Returns (packets consumed, return code, session, pid
table, events); return code 0 models the end-of-stream return. -/
def demuxLoop (waitEs : Bool) :
    demux_sys_t → (Nat → ts_pid_t) → List (List Nat) → Nat →
    Nat × Int × demux_sys_t × (Nat → ts_pid_t) × List TsEvent
  | sys, pids, _, 0 => (0, 1, sys, pids, [])
  | sys, pids, [], _ + 1 => (0, 0, sys, pids, [])
  | sys, pids, pkt :: rest, budget + 1 =>
    let r := demuxProcessPacket sys pids pkt
    if r.1 ∨ (waitEs ∧ r.2.1.i_pmt_es > 0) then
      (1, 1, r.2.1, r.2.2.1, r.2.2.2)
    else
      let ro := demuxLoop waitEs r.2.1 r.2.2.1 rest budget
      (ro.1 + 1, ro.2.1, ro.2.2.1, ro.2.2.2.1, r.2.2.2 ++ ro.2.2.2.2)

/-- Demux: one invocation of the produce-more-output operation. -/
def Demux (sys : demux_sys_t) (pids : Nat → ts_pid_t)
    (stream : List (List Nat)) :
    Nat × Int × demux_sys_t × (Nat → ts_pid_t) × List TsEvent :=
  demuxLoop (sys.i_pmt_es ≤ 0) sys pids stream sys.i_ts_read

lemma demuxLoop_consumed_le (waitEs : Bool) :
    ∀ (budget : Nat) (sys : demux_sys_t) (pids : Nat → ts_pid_t)
      (stream : List (List Nat)),
      (demuxLoop waitEs sys pids stream budget).1 ≤ budget := by
  intro budget
  induction budget with
  | zero =>
    intro sys pids stream
    cases stream <;> simp [demuxLoop]
  | succ n ih =>
    intro sys pids stream
    cases stream with
    | nil => simp [demuxLoop]
    | cons pkt rest =>
      rw [demuxLoop]
      by_cases h : (demuxProcessPacket sys pids pkt).1 ∨
          (waitEs ∧ (demuxProcessPacket sys pids pkt).2.1.i_pmt_es > 0)
      · rw [if_pos h]
        omega
      · rw [if_neg h]
        dsimp only
        have := ih (demuxProcessPacket sys pids pkt).2.1
          (demuxProcessPacket sys pids pkt).2.2.1 rest
        omega

/-- C8: each Demux invocation consumes at most i_ts_read packets -
the value Open stores is 50, within the claimed bound of 100 - and
the loop stops at the packet that completes a frame, or, when the
invocation started with no registered elementary stream, at the
packet whose processing makes the registered count positive. -/
theorem C8_demux_batch :
    (∀ (sys : demux_sys_t) (pids : Nat → ts_pid_t)
      (stream : List (List Nat)),
      (Demux sys pids stream).1 ≤ sys.i_ts_read ∧
      (sys.i_ts_read = open_i_ts_read → (Demux sys pids stream).1 ≤ 100)) ∧
    open_i_ts_read = 50 ∧
    (∀ (waitEs : Bool) (sys : demux_sys_t) (pids : Nat → ts_pid_t)
      (pkt : List Nat) (rest : List (List Nat)) (budget : Nat),
      (demuxProcessPacket sys pids pkt).1 = true ∨
        (waitEs = true ∧
          (demuxProcessPacket sys pids pkt).2.1.i_pmt_es > 0) →
      (demuxLoop waitEs sys pids (pkt :: rest) (budget + 1)).1 = 1) := by
  refine ⟨?_, rfl, ?_⟩
  · intro sys pids stream
    constructor
    · exact demuxLoop_consumed_le (sys.i_pmt_es ≤ 0) sys.i_ts_read sys pids
        stream
    · intro h
      have := demuxLoop_consumed_le (sys.i_pmt_es ≤ 0) sys.i_ts_read sys pids
        stream
      rw [h] at this
      calc (Demux sys pids stream).1 ≤ open_i_ts_read := by
            simpa [Demux, h] using this
        _ ≤ 100 := by decide
  · intro waitEs sys pids pkt rest budget h
    rw [demuxLoop, if_pos (by simpa using h)]

/-- C8 witness: a Demux invocation on a fresh session with a single
unknown-PID packet consumes one packet (at most 50, at most 100); a
frame-completing first packet stops the loop at once. -/
theorem C8_witness :
    (Demux sysC1 (fun _ => {}) [[0x47, 0, 100, 0x10]]).1 ≤ 100 ∧
      (demuxLoop true (GatherData sysC1 pidC5 pktC5a).2.1
        (fun _ => { i_pid := 0 }) [pktC5c] 7).1 ≤ 7 := by
  constructor
  · exact ((C8_demux_batch.1 sysC1 (fun _ => {})
      [[0x47, 0, 100, 0x10]]).2 rfl).trans (by omega)
  · exact demuxLoop_consumed_le true 7 (GatherData sysC1 pidC5 pktC5a).2.1
      (fun _ => { i_pid := 0 }) [pktC5c]

/-! ## PIDFillFormat (ts.c lines 2571-2644) -/

/-- PIDFillFormat: stream-type to (category, codec) table.  Types
0x06/0x12/0xEA/0xa0 and anything unknown become UNKNOWN_ES with
codec 0 ("fixed later" by descriptor parsing). -/
def PIDFillFormat (i_stream_type : Nat) : EsCat × Nat :=
  if i_stream_type = 0x01 ∨ i_stream_type = 0x02 ∨ i_stream_type = 0x80 then
    (EsCat.video, VLC_CODEC_MPGV)
  else if i_stream_type = 0x03 ∨ i_stream_type = 0x04 then
    (EsCat.audio, VLC_CODEC_MPGA)
  else if i_stream_type = 0x11 ∨ i_stream_type = 0x0f ∨
      i_stream_type = 0x1c then
    (EsCat.audio, VLC_CODEC_MP4A)
  else if i_stream_type = 0x10 then
    (EsCat.video, VLC_CODEC_MP4V)
  else if i_stream_type = 0x1B then
    (EsCat.video, VLC_CODEC_H264)
  else if i_stream_type = 0x24 then
    (EsCat.video, VLC_CODEC_HEVC)
  else if i_stream_type = 0x42 then
    (EsCat.video, VLC_CODEC_CAVS)
  else if i_stream_type = 0x81 then
    (EsCat.audio, VLC_CODEC_A52)
  else if i_stream_type = 0x82 then
    (EsCat.spu, VLC_CODEC_SCTE_27)
  else if i_stream_type = 0x84 then
    (EsCat.audio, VLC_CODEC_SDDS)
  else if i_stream_type = 0x85 then
    (EsCat.audio, VLC_CODEC_DTS)
  else if i_stream_type = 0x87 then
    (EsCat.audio, VLC_CODEC_EAC3)
  else if i_stream_type = 0x91 then
    (EsCat.audio, VLC_CODEC_A52B)
  else if i_stream_type = 0x92 then
    (EsCat.spu, VLC_CODEC_SPUB)
  else if i_stream_type = 0x94 then
    (EsCat.audio, VLC_CODEC_SDDB)
  else
    (EsCat.unknown, 0)

/-! ## PATCallBack / PMTCallBack version gating (ts.c lines
4788-4942, 4393-4455)

The table-decoder state relevant to the callbacks: the last applied
PAT version, the user-PMT flag, the PMT subscriptions (p_sys->pmt
entries with their ts_prg_psi_t programs), and the valid ES PIDs of
the 8192-entry table tagged with their owning PMT PID.  Tables
handed over by the external libdvbpsi decoder are records.  On the
accepted PMT path the descriptor-driven refinements (registration
descriptors, IOD, split policies) are not replayed; elementary
streams are classified through the PIDFillFormat stream-type table
and registered when their category is known, which is the skeleton
the claims exercise. -/

def TS_USER_PMT_NUMBER : Int := 0

structure ts_prg_psi_t where
  i_number : Int
  i_pid_pmt : Int
  i_pid_pcr : Int
  i_version : Int
deriving DecidableEq

structure pmt_entry where
  i_pid : Nat
  prgs : List ts_prg_psi_t
deriving DecidableEq

structure pat_state where
  i_pat_version : Int := -1
  b_user_pmt : Bool := false
  pmts : List pmt_entry := []
  esPids : List (Nat × Nat) := []
deriving DecidableEq

structure dvbpsi_pat_program where
  i_number : Int
  i_pid : Nat
deriving DecidableEq

structure dvbpsi_pat where
  i_version : Int
  b_current_next : Bool
  programs : List dvbpsi_pat_program
deriving DecidableEq

structure dvbpsi_pmt where
  i_program_number : Int
  i_version : Int
  b_current_next : Bool
  i_pcr_pid : Int
  es : List (Nat × Nat)
deriving DecidableEq

/-- The b_keep test of PATCallBack: a PMT subscription survives when
the new PAT lists some program with the same PMT PID and a program
number the subscription already tracks. -/
def patKeep (pat : dvbpsi_pat) (pmt : pmt_entry) : Bool :=
  pat.programs.any (fun pr =>
    pr.i_pid == pmt.i_pid &&
      pmt.prgs.any (fun prg => prg.i_number == pr.i_number))

/-- Fresh ts_prg_psi_t made for a PAT program (PIDInit plus the
number/PMT-PID assignment of PATCallBack). -/
def newPatPrg (pr : dvbpsi_pat_program) : ts_prg_psi_t :=
  { i_number := pr.i_number, i_pid_pmt := pr.i_pid, i_pid_pcr := -1,
    i_version := -1 }

/-- Program-creation step of PATCallBack for one listed program. -/
def patAddProgram (pmts : List pmt_entry) (pr : dvbpsi_pat_program) :
    List pmt_entry :=
  if pmts.any (fun e => e.i_pid == pr.i_pid) then
    pmts.map (fun e =>
      if e.i_pid == pr.i_pid then
        if e.prgs.any (fun prg => prg.i_number == pr.i_number) then e
        else { e with prgs := e.prgs ++ [newPatPrg pr] }
      else e)
  else
    pmts ++ [{ i_pid := pr.i_pid, prgs := [newPatPrg pr] }]

/-- Accepted-update body of PATCallBack: tear down PMT subscriptions
no longer listed (with one group-removal notification per dropped
program) and the ES PIDs they own, create the newly listed programs
(numbers other than the network sentinel 0), and record the applied
version. -/
def applyPAT (st : pat_state) (pat : dvbpsi_pat) : pat_state × List TsEvent :=
  let pmt_rm := st.pmts.filter (fun pmt => ¬ patKeep pat pmt)
  let esKeep := st.esPids.filter (fun ep =>
    ¬ pmt_rm.any (fun pm => pm.i_pid == ep.2))
  let evs := pmt_rm.foldr (fun pm acc =>
    pm.prgs.map (fun prg => TsEvent.esOutDelGroup prg.i_number) ++ acc) []
  let kept := st.pmts.filter (fun pmt => patKeep pat pmt)
  let created := (pat.programs.filter (fun pr => ¬ pr.i_number == 0)).foldl
    patAddProgram kept
  ({ st with
      i_pat_version := pat.i_version
      pmts := created
      esPids := esKeep }, evs)

/-- PATCallBack: version gate (stored version present and either a
"next" table or an identical version), user-PMT override, then the
accepted-update body. -/
def PATCallBack (st : pat_state) (pat : dvbpsi_pat) :
    pat_state × List TsEvent :=
  if (st.i_pat_version ≠ -1 ∧
        (¬ pat.b_current_next ∨ pat.i_version = st.i_pat_version)) ∨
      st.b_user_pmt then
    (st, [])
  else
    applyPAT st pat

/-- The PMT-location scan of PMTCallBack: first subscription holding
a program with the delivered program number (user programs, number
TS_USER_PMT_NUMBER, excluded). -/
def findPmtPrg (num : Int) : List pmt_entry → Option (Nat × ts_prg_psi_t)
  | [] => none
  | e :: rest =>
    match e.prgs.find? (fun prg =>
        !(prg.i_number == TS_USER_PMT_NUMBER) && prg.i_number == num) with
    | some prg => some (e.i_pid, prg)
    | none => findPmtPrg num rest

/-- Accepted-update body of PMTCallBack: store the PCR PID and the
version, replace the ES PIDs owned by this PMT with the newly
declared ones, and register every stream whose stream type
classifies to a known category. -/
def applyPMT (st : pat_state) (pmtPid : Nat) (tbl : dvbpsi_pmt) :
    pat_state × List TsEvent :=
  let pmts2 := st.pmts.map (fun e =>
    { e with prgs := e.prgs.map (fun prg =>
        if !(prg.i_number == TS_USER_PMT_NUMBER) &&
            prg.i_number == tbl.i_program_number then
          { prg with i_pid_pcr := tbl.i_pcr_pid, i_version := tbl.i_version }
        else prg) })
  let esKeep := st.esPids.filter (fun ep => ¬ (ep.2 == pmtPid))
  let esNew := tbl.es.map (fun e => (e.1, pmtPid))
  let evs := tbl.es.foldr (fun e acc =>
    let fmt := PIDFillFormat e.2
    (if fmt.1 ≠ EsCat.unknown then [TsEvent.esOutAdd e.1 fmt.1 fmt.2]
     else []) ++ acc) []
  ({ st with
      pmts := pmts2
      esPids := esKeep ++ esNew }, evs)

/-- PMTCallBack: locate the subscription, apply the version gate
(stored version present and either a "next" table or an identical
version), then the accepted-update body. -/
def PMTCallBack (st : pat_state) (tbl : dvbpsi_pmt) :
    pat_state × List TsEvent :=
  match findPmtPrg tbl.i_program_number st.pmts with
  | none => (st, [])
  | some (pmtPid, prg) =>
    if prg.i_version ≠ -1 ∧
        (¬ tbl.b_current_next ∨ prg.i_version = tbl.i_version) then
      (st, [])
    else
      applyPMT st pmtPid tbl

/-- C3: when the stored version of a table identity is no longer the
-1 sentinel, a delivered PAT/PMT is applied only if it carries the
current (not next) indicator and a version different from the stored
one; otherwise the callback returns with the program, PID-table and
elementary-stream state unchanged and no notification events issued.
When the gate passes (current indicator, different version, no user
PMT override) the PAT update is applied and the stored version
becomes the delivered one. -/
theorem C3_version_gating :
    (∀ (st : pat_state) (pat : dvbpsi_pat),
      st.i_pat_version ≠ -1 →
      ¬ (pat.b_current_next = true ∧ pat.i_version ≠ st.i_pat_version) →
      PATCallBack st pat = (st, [])) ∧
    (∀ (st : pat_state) (pat : dvbpsi_pat),
      st.b_user_pmt = false → pat.b_current_next = true →
      pat.i_version ≠ st.i_pat_version →
      (PATCallBack st pat).1.i_pat_version = pat.i_version) ∧
    (∀ (st : pat_state) (tbl : dvbpsi_pmt) (pmtPid : Nat)
        (prg : ts_prg_psi_t),
      findPmtPrg tbl.i_program_number st.pmts = some (pmtPid, prg) →
      prg.i_version ≠ -1 →
      ¬ (tbl.b_current_next = true ∧ tbl.i_version ≠ prg.i_version) →
      PMTCallBack st tbl = (st, [])) := by
  refine ⟨?_, ?_, ?_⟩
  · intro st pat h1 h2
    have hor : ¬ pat.b_current_next = true ∨
        pat.i_version = st.i_pat_version := by
      by_cases hc : pat.b_current_next = true
      · right
        by_contra hne
        exact h2 ⟨hc, hne⟩
      · left
        exact hc
    unfold PATCallBack
    rw [if_pos (Or.inl ⟨h1, hor⟩)]
  · intro st pat hu hc hv
    unfold PATCallBack
    rw [if_neg (by simp [hu, hc]; intro _; exact hv)]
    simp [applyPAT]
  · intro st tbl pmtPid prg hfind h1 h2
    have hor : ¬ tbl.b_current_next = true ∨
        prg.i_version = tbl.i_version := by
      by_cases hc : tbl.b_current_next = true
      · right
        by_contra hne
        exact h2 ⟨hc, fun h => hne h.symm⟩
      · left
        exact hc
    unfold PMTCallBack
    rw [hfind]
    dsimp only
    rw [if_pos ⟨h1, hor⟩]

/-- Subscription state for the C3 witness: PAT version 5 applied, one
program (number 3, PMT PID 100, PMT version 7), one ES PID owned. -/
def stC3 : pat_state :=
  { i_pat_version := 5,
    pmts := [{ i_pid := 100,
               prgs := [{ i_number := 3, i_pid_pmt := 100, i_pid_pcr := 300,
                          i_version := 7 }] }],
    esPids := [(200, 100)] }

/-- C3 witness: re-delivering PAT version 5 (current) or a "next" PAT
changes nothing and emits nothing; a PMT for program 3 with the
stored version 7 is likewise discarded; a current PAT with version 6
is applied. -/
theorem C3_witness :
    PATCallBack stC3
        { i_version := 5
          b_current_next := true
          programs := [{ i_number := 3, i_pid := 100 }] } = (stC3, []) ∧
    PATCallBack stC3
        { i_version := 6
          b_current_next := false
          programs := [{ i_number := 3, i_pid := 100 }] } = (stC3, []) ∧
    PMTCallBack stC3
        { i_program_number := 3
          i_version := 7
          b_current_next := true
          i_pcr_pid := 301
          es := [(200, 0x1B)] } = (stC3, []) ∧
    (PATCallBack stC3
        { i_version := 6
          b_current_next := true
          programs :=
            [{ i_number := 3, i_pid := 100 }] }).1.i_pat_version = 6 := by
  refine ⟨?_, ?_, ?_, ?_⟩
  · exact C3_version_gating.1 stC3 _ (by decide) (by decide)
  · exact C3_version_gating.1 stC3 _ (by decide) (by decide)
  · exact C3_version_gating.2.2 stC3 _ 100
      { i_number := 3, i_pid_pmt := 100, i_pid_pcr := 300, i_version := 7 }
      (by decide) (by decide) (by decide)
  · exact C3_version_gating.2.1 stC3 _ rfl rfl (by decide)

/-! ## Stream model, SeekToPCR, GetLastPCR, Seek, Control (ts.c
lines 2090-2134, 2238-2282, 2136-2205, 1077-1096)

The underlying byte stream is modelled by its size and a scan
oracle: scan p yields the first PCR readable on the reference PID
from position p onwards together with the stream position after
reading it, or none when the scan loop gives up (end of stream
before a PCR).  SeekToPCR restores the entry position on failure, so
its none case leaves the state unchanged.  Loops whose termination
rests on stream progress take an explicit iteration budget; every
property proved below holds for all budgets.  The percentage f is
modelled as an exact rational; the conversion of the C double to
mtime_t truncates toward zero. -/

structure stream_model where
  size : Int
  scan : Int → Option (Int × Int)

def VLC_SUCCESS : Int := 0
def VLC_EGENERIC : Int := -1

/-- Truncation toward zero of a rational (numerator over
denominator in C division), as the C cast of a double to an integer
type. -/
def doubleToMtime (q : ℚ) : Int :=
  Int.tdiv q.num (q.den : Int)

/-- SeekToPCR: clamp the requested position to the last whole
packet, seek there and scan forward for a PCR on the reference PID;
on failure the stream position is restored (state unchanged). -/
def SeekToPCR (m : stream_model) (sys : demux_sys_t) (iPos : Int) :
    Option demux_sys_t :=
  if iPos < 0 then none
  else
    let iLast := m.size - sys.i_packet_size
    let iP := if iPos > iLast then iLast else iPos
    match m.scan iP with
    | none => none
    | some r => some { sys with pos := r.2, i_current_pcr := r.1 }

def TS_SUPPOSED_MAXRATE : Int := 55 * 1000 * 1000

/-- 0.5 * 1000 * 1000 computed in double and converted: 500000. -/
def TS_SUPPOSED_MINRATE : Int := 500000

/-- First-to-last PCR span in milliseconds (the i_duration_msec
line of GetLastPCR, with C truncating division). -/
def durationMsec (sys : demux_sys_t) : Int :=
  Int.tdiv (Int.tdiv ((sys.i_last_pcr - sys.i_first_pcr) * 100) 9) 1000

/-- Implied bitrate (the i_rate line of GetLastPCR): stream size in
bits over the PCR span, 0 when the size or span is unusable. -/
def bitrateOf (i_size : Int) (sys : demux_sys_t) : Int :=
  if i_size < 0 ∨ durationMsec sys ≤ 0 then 0
  else Int.tdiv (i_size * 1000 * 8) (durationMsec sys)

/-- Bitrate plausibility check at the end of GetLastPCR: reject the
found last PCR when the implied bitrate falls outside
[TS_SUPPOSED_MINRATE, TS_SUPPOSED_MAXRATE]. -/
def validateLastPCR (i_size : Int) (sys : demux_sys_t) : demux_sys_t :=
  if sys.i_last_pcr ≥ 0 then
    if bitrateOf i_size sys < TS_SUPPOSED_MINRATE ∨
        bitrateOf i_size sys > TS_SUPPOSED_MAXRATE then
      { sys with i_last_pcr := -1 }
    else sys
  else sys

/-- Scan loop of GetLastPCR: keep taking the wraparound-adjusted
current PCR as candidate last PCR until the position passes the last
whole packet or the scan fails. -/
def getLastPCRloop (m : stream_model) :
    demux_sys_t → Int → Int → Nat → demux_sys_t
  | sys, _, _, 0 => sys
  | sys, iPos, iLastPos, fuel + 1 =>
    match SeekToPCR m sys iPos with
    | none => sys
    | some sys1 =>
      let adj := AdjustPCRWrapAround sys1.p_pcrs sys1.p_pos sys1.i_pcrs_num
        sys1.pos sys1.i_current_pcr
      let sys2 := { sys1 with i_last_pcr := adj }
      if sys2.pos ≥ iLastPos then sys2
      else getLastPCRloop m sys2 sys2.pos iLastPos fuel

/-- Start position of the GetLastPCR scan: 4500 packets before the
last whole packet, rounded down to a packet multiple, bumped past
the current position in the degenerate case the source guards. -/
def getLastPCRstart (m : stream_model) (sys : demux_sys_t) : Int :=
  let i_last_pos := m.size - sys.i_packet_size
  let i_pos0 := i_last_pos - sys.i_packet_size * 4500
  let i_pos1 := i_pos0 - Int.tmod i_pos0 sys.i_packet_size
  if i_pos1 ≤ sys.pos ∧ i_pos1 ≥ m.size then sys.pos + sys.i_packet_size
  else i_pos1

/-- GetLastPCR: scan near the end of the stream for the last PCR,
validate it against the implied bitrate, and restore the stream
position and the current PCR unconditionally. -/
def GetLastPCR (m : stream_model) (sys : demux_sys_t) (fuel : Nat) :
    demux_sys_t :=
  let iStart := getLastPCRstart m sys
  if iStart < 0 ∧ iStart ≥ m.size then sys
  else
    let sys1 := getLastPCRloop m sys iStart (m.size - sys.i_packet_size) fuel
    let sys2 := validateLastPCR m.size sys1
    { sys2 with pos := sys.pos, i_current_pcr := sys.i_current_pcr }

/-- Bracket scan of Seek: walk the sample table accumulating the
wraparound adjust until a sample exceeds the target. -/
def seekBracketScan (pcrs : Nat → Int) (num : Nat) (target : Int) :
    Nat → Int → Nat → Nat
  | i, _, 0 => i
  | i, adj, r + 1 =>
    if i < num then
      let adj2 := adj + (if pcrs (i - 1) > pcrs i then pcrWrapAdd else 0)
      if pcrs i + adj2 > target then i
      else seekBracketScan pcrs num target (i + 1) adj2 r
    else i

/-- Bisection loop of Seek: measure the PCR at the packet-aligned
midpoint, compare to the target within the 500 ms band, and narrow
the bracket.  The bracket shrinks by at least one packet per
iteration, so any budget of at least the initial bracket width
covers the C loop; running out of budget lands on the same
not-found path the C loop reaches. -/
def seekLoop (m : stream_model) (target : Int) :
    Int → Int → demux_sys_t → Nat → Bool × demux_sys_t
  | _, _, sys, 0 => (false, sys)
  | head, tail, sys, fuel + 1 =>
    if head ≤ tail then
      let iPos0 := head + Int.tdiv (tail - head) 2
      let iPos := iPos0 - Int.tmod iPos0 sys.i_packet_size
      match SeekToPCR m sys iPos with
      | none => (false, sys)
      | some sys1 =>
        let adj := AdjustPCRWrapAround sys1.p_pcrs sys1.p_pos sys1.i_pcrs_num
          sys1.pos sys1.i_current_pcr
        let sys2 := { sys1 with i_current_pcr := adj }
        let diffMsec :=
          Int.tdiv (Int.tdiv ((sys2.i_current_pcr - target) * 100) 9) 1000
        if diffMsec > 500 then
          seekLoop m target head (iPos - sys.i_packet_size) sys2 fuel
        else if diffMsec < -500 then
          seekLoop m target (iPos + sys.i_packet_size) tail sys2 fuel
        else (true, sys2)
    else (false, sys)

/-- Epilogue of Seek: found means VLC_SUCCESS with the bisection
state, not found restores the stream position and the current PCR
and reports VLC_EGENERIC. -/
def seekFinish (sys : demux_sys_t) (r : Bool × demux_sys_t) :
    Int × demux_sys_t :=
  if r.1 then (VLC_SUCCESS, r.2)
  else
    (VLC_EGENERIC,
     { r.2 with pos := sys.pos, i_current_pcr := sys.i_current_pcr })

/-- Seek: binary search for the byte position whose PCR lies within
500 ms of first_pcr + f * (last_pcr - first_pcr); on failure restore
the stream position and the current PCR and report VLC_EGENERIC. -/
def Seek (m : stream_model) (sys : demux_sys_t) (f : ℚ) (fuel : Nat) :
    Int × demux_sys_t :=
  let i_target_pcr := doubleToMtime
    (((sys.i_last_pcr : ℚ) - (sys.i_first_pcr : ℚ)) * f +
      (sys.i_first_pcr : ℚ))
  let i := seekBracketScan sys.p_pcrs sys.i_pcrs_num i_target_pcr 1 0
    sys.i_pcrs_num
  let i_head_pos := sys.p_pos (i - 1)
  let i_tail_pos := if i < sys.i_pcrs_num then sys.p_pos i else m.size
  seekFinish sys (seekLoop m i_target_pcr i_head_pos i_tail_pos sys fuel)

/-- DEMUX_SET_POSITION handler of Control: byte-offset-proportional
seeking when forced (or broadcast metadata / no usable PCR span),
otherwise PCR-based Seek, whose failure sets the session-wide
force-seek-per-percent flag.  stream_Seek itself is modelled as
always succeeding. -/
def Control_SetPosition (m : stream_model) (sys : demux_sys_t) (f : ℚ)
    (fuel : Nat) : Int × demux_sys_t :=
  if sys.b_force_seek_per_percent ∨ (sys.b_dvb_meta ∧ sys.b_access_control) ∨
      sys.i_last_pcr - sys.i_first_pcr ≤ 0 then
    (VLC_SUCCESS, { sys with pos := doubleToMtime ((m.size : ℚ) * f) })
  else
    let r := Seek m sys f fuel
    if r.1 = VLC_SUCCESS then (VLC_SUCCESS, r.2)
    else (VLC_EGENERIC, { r.2 with b_force_seek_per_percent := true })

/-- C9: after the last-PCR probe the implied bitrate (stream bits
over the first-to-last PCR duration) is checked; outside
[0.5 Mbit/s, 55 Mbit/s] the last PCR is reset to the not-found
sentinel -1, inside the interval it is kept; the result of
GetLastPCR is exactly the bitrate-validated scan result; and the
stream position and the current PCR are restored to their pre-probe
values in every case. -/
theorem C9_last_pcr_bitrate :
    (∀ (m : stream_model) (sys : demux_sys_t) (fuel : Nat),
      (GetLastPCR m sys fuel).pos = sys.pos ∧
      (GetLastPCR m sys fuel).i_current_pcr = sys.i_current_pcr) ∧
    (∀ (i_size : Int) (sys : demux_sys_t), sys.i_last_pcr ≥ 0 →
      bitrateOf i_size sys < TS_SUPPOSED_MINRATE ∨
        bitrateOf i_size sys > TS_SUPPOSED_MAXRATE →
      (validateLastPCR i_size sys).i_last_pcr = -1) ∧
    (∀ (i_size : Int) (sys : demux_sys_t), sys.i_last_pcr ≥ 0 →
      TS_SUPPOSED_MINRATE ≤ bitrateOf i_size sys →
      bitrateOf i_size sys ≤ TS_SUPPOSED_MAXRATE →
      validateLastPCR i_size sys = sys) ∧
    (∀ (m : stream_model) (sys : demux_sys_t) (fuel : Nat),
      ¬ (getLastPCRstart m sys < 0 ∧ getLastPCRstart m sys ≥ m.size) →
      (GetLastPCR m sys fuel).i_last_pcr =
        (validateLastPCR m.size
          (getLastPCRloop m sys (getLastPCRstart m sys)
            (m.size - sys.i_packet_size) fuel)).i_last_pcr) := by
  refine ⟨?_, ?_, ?_, ?_⟩
  · intro m sys fuel
    unfold GetLastPCR
    dsimp only
    split
    · exact ⟨rfl, rfl⟩
    · exact ⟨rfl, rfl⟩
  · intro i_size sys h0 hr
    unfold validateLastPCR
    rw [if_pos h0, if_pos hr]
  · intro i_size sys h0 hmin hmax
    unfold validateLastPCR
    rw [if_pos h0, if_neg (not_or.mpr ⟨not_lt.mpr hmin, not_lt.mpr hmax⟩)]
  · intro m sys fuel h
    unfold GetLastPCR
    dsimp only
    rw [if_neg h]

/-- Witness for C9 at concrete states: a 9-tick PCR span truncates
to a 0 ms duration, so the rate is 0 and the last PCR is rejected;
and on a 1000-byte stream whose scan never finds a PCR the probe
result equals the validated scan result. -/
theorem C9_witness :
    (validateLastPCR 1000000
      ({ i_last_pcr := 9, i_first_pcr := 0 } : demux_sys_t)).i_last_pcr =
        -1 ∧
    (GetLastPCR ({ size := 1000, scan := fun _ => none } : stream_model)
        ({} : demux_sys_t) 3).i_last_pcr =
      (validateLastPCR 1000
        (getLastPCRloop ({ size := 1000, scan := fun _ => none } : stream_model)
          ({} : demux_sys_t)
          (getLastPCRstart
            ({ size := 1000, scan := fun _ => none } : stream_model)
            ({} : demux_sys_t))
          (1000 - 188) 3)).i_last_pcr :=
  ⟨C9_last_pcr_bitrate.2.1 1000000 _ (by decide) (by decide),
   C9_last_pcr_bitrate.2.2.2 _ _ 3 (by decide)⟩

/-- C6: whenever the PCR bisection reports failure (VLC_EGENERIC),
Seek has restored the stream position and the current PCR to their
pre-call values; the DEMUX_SET_POSITION handler then reports failure
and sets the session-wide force-seek-per-percent flag while keeping
the restored state; and once that flag is set every later
DEMUX_SET_POSITION seeks by byte-offset proportion f * size. -/
theorem C6_seek_failure :
    (∀ (m : stream_model) (sys : demux_sys_t) (f : ℚ) (fuel : Nat),
      (Seek m sys f fuel).1 = VLC_EGENERIC →
      (Seek m sys f fuel).2.pos = sys.pos ∧
      (Seek m sys f fuel).2.i_current_pcr = sys.i_current_pcr) ∧
    (∀ (m : stream_model) (sys : demux_sys_t) (f : ℚ) (fuel : Nat),
      sys.b_force_seek_per_percent = false →
      ¬ (sys.b_dvb_meta ∧ sys.b_access_control) →
      ¬ (sys.i_last_pcr - sys.i_first_pcr ≤ 0) →
      (Seek m sys f fuel).1 = VLC_EGENERIC →
      (Control_SetPosition m sys f fuel).1 = VLC_EGENERIC ∧
      (Control_SetPosition m sys f fuel).2.b_force_seek_per_percent = true ∧
      (Control_SetPosition m sys f fuel).2.pos = sys.pos ∧
      (Control_SetPosition m sys f fuel).2.i_current_pcr =
        sys.i_current_pcr) ∧
    (∀ (m : stream_model) (sys : demux_sys_t) (f : ℚ) (fuel : Nat),
      sys.b_force_seek_per_percent = true →
      Control_SetPosition m sys f fuel =
        (VLC_SUCCESS, { sys with pos := doubleToMtime ((m.size : ℚ) * f) }))
    := by
  have hA : ∀ (m : stream_model) (sys : demux_sys_t) (f : ℚ) (fuel : Nat),
      (Seek m sys f fuel).1 = VLC_EGENERIC →
      (Seek m sys f fuel).2.pos = sys.pos ∧
      (Seek m sys f fuel).2.i_current_pcr = sys.i_current_pcr := by
    intro m sys f fuel
    have key : ∀ (r : Bool × demux_sys_t),
        (seekFinish sys r).1 = VLC_EGENERIC →
        (seekFinish sys r).2.pos = sys.pos ∧
        (seekFinish sys r).2.i_current_pcr = sys.i_current_pcr := by
      rintro ⟨b, s⟩
      cases b
      · intro _
        exact ⟨rfl, rfl⟩
      · intro h
        have hne : VLC_SUCCESS ≠ VLC_EGENERIC := by decide
        exact absurd h hne
    exact key _
  refine ⟨hA, ?_, ?_⟩
  · intro m sys f fuel h1 h2 h3 h4
    have hc : ¬ (sys.b_force_seek_per_percent ∨
        (sys.b_dvb_meta ∧ sys.b_access_control) ∨
        sys.i_last_pcr - sys.i_first_pcr ≤ 0) := by
      intro hc
      rcases hc with hc | hc | hc
      · rw [h1] at hc
        exact absurd hc (by decide)
      · exact h2 hc
      · exact h3 hc
    unfold Control_SetPosition
    rw [if_neg hc]
    dsimp only
    rw [if_neg (by rw [h4]; decide)]
    exact ⟨rfl, rfl, (hA m sys f fuel h4).1, (hA m sys f fuel h4).2⟩
  · intro m sys f fuel h1
    unfold Control_SetPosition
    rw [if_pos (Or.inl h1)]

/-- Witness for C6 at a concrete state: a 1000-byte stream whose
scan never yields a PCR makes the bisection fail, so the handler
reports VLC_EGENERIC, sets the force flag and keeps the position;
with the flag already set the handler seeks to f * size. -/
theorem C6_witness :
    ((Control_SetPosition ({ size := 1000, scan := fun _ => none } :
          stream_model)
        ({ pos := 42, b_dvb_meta := false, b_access_control := false,
           i_first_pcr := 0, i_last_pcr := 90000 } : demux_sys_t)
        0 1).1 = VLC_EGENERIC ∧
      (Control_SetPosition ({ size := 1000, scan := fun _ => none } :
          stream_model)
        ({ pos := 42, b_dvb_meta := false, b_access_control := false,
           i_first_pcr := 0, i_last_pcr := 90000 } : demux_sys_t)
        0 1).2.b_force_seek_per_percent = true ∧
      (Control_SetPosition ({ size := 1000, scan := fun _ => none } :
          stream_model)
        ({ pos := 42, b_dvb_meta := false, b_access_control := false,
           i_first_pcr := 0, i_last_pcr := 90000 } : demux_sys_t)
        0 1).2.pos = 42 ∧
      (Control_SetPosition ({ size := 1000, scan := fun _ => none } :
          stream_model)
        ({ pos := 42, b_dvb_meta := false, b_access_control := false,
           i_first_pcr := 0, i_last_pcr := 90000 } : demux_sys_t)
        0 1).2.i_current_pcr = -1) ∧
    Control_SetPosition ({ size := 1000, scan := fun _ => none } :
        stream_model)
      ({ b_force_seek_per_percent := true } : demux_sys_t) (1/2) 1 =
      (VLC_SUCCESS,
       { ({ b_force_seek_per_percent := true } : demux_sys_t) with
         pos := doubleToMtime (((1000 : Int) : ℚ) * (1/2)) }) :=
  ⟨C6_seek_failure.2.1 _ _ 0 1 rfl (by decide) (by decide)
     (by with_unfolding_all rfl),
   C6_seek_failure.2.2 _ _ (1/2) 1 rfl⟩

/-! ## UserPmt (ts.c lines 1227-1365)

The ts-extra-pmt option string is parsed with strtol (base 0:
leading 0x selects hexadecimal, leading 0 octal, otherwise decimal;
no digits means value 0 with the input position unchanged).  The
dvbpsi handle attach is modelled as succeeding, and the
b_es_id_pid-driven fmt.i_id assignment is not modelled (the ES
format record carries no id field here). -/

def isSpaceChar (c : Char) : Bool :=
  c == ' ' || c == '\t' || c == '\n' || c == '\r' ||
    c == '\x0b' || c == '\x0c'

/-- Value of one digit character under the given base. -/
def digitVal (base : Nat) (c : Char) : Option Nat :=
  let v : Option Nat :=
    if '0' ≤ c ∧ c ≤ '9' then some (c.toNat - 48)
    else if 'a' ≤ c ∧ c ≤ 'f' then some (c.toNat - 87)
    else if 'A' ≤ c ∧ c ≤ 'F' then some (c.toNat - 55)
    else none
  match v with
  | some n => if n < base then some n else none
  | none => none

/-- Digit run: accumulated value, number of digits consumed, rest. -/
def parseDigits (base : Nat) : List Char → Nat → Nat → Nat × Nat × List Char
  | [], acc, n => (acc, n, [])
  | c :: rest, acc, n =>
    match digitVal base c with
    | some v => parseDigits base rest (acc * base + v) (n + 1)
    | none => (acc, n, c :: rest)

/-- strtol with base 0: optional whitespace and sign, 0x/0X prefix
for base 16, leading 0 for base 8, else base 10; returns the value
and the position after the digits (the original position when no
digit converts, as with a NULL-digit endptr). -/
def strtol0 (s : List Char) : Int × List Char :=
  let s1 := s.dropWhile isSpaceChar
  let sp : Int × List Char :=
    match s1 with
    | '-' :: r => (-1, r)
    | '+' :: r => (1, r)
    | _ => (1, s1)
  let r : Nat × Nat × List Char :=
    match sp.2 with
    | '0' :: 'x' :: rest =>
      let d := parseDigits 16 rest 0 0
      if d.2.1 = 0 then (0, 1, 'x' :: rest) else d
    | '0' :: 'X' :: rest =>
      let d := parseDigits 16 rest 0 0
      if d.2.1 = 0 then (0, 1, 'X' :: rest) else d
    | '0' :: rest =>
      let d := parseDigits 8 rest 0 0
      (d.1, d.2.1 + 1, d.2.2)
    | rest => parseDigits 10 rest 0 0
  if r.2.1 = 0 then (0, s) else (sp.1 * (r.1 : Int), r.2.2)

/-- Split before/after the first occurrence of a character (strchr
plus cutting), none when absent. -/
def splitFirst (c : Char) : List Char → Option (List Char × List Char)
  | [] => none
  | x :: r =>
    if x = c then some ([], r)
    else
      match splitFirst c r with
      | none => none
      | some p => some (x :: p.1, p.2)

/-- Split on every comma (the psz_next token cutting). -/
def splitOnComma (s : List Char) : List (List Char) :=
  s.foldr
    (fun c acc =>
      match acc with
      | [] => if c = ',' then [[], []] else [[c]]
      | t :: r => if c = ',' then [] :: t :: r else (c :: t) :: r)
    [[]]

/-- VLC_FOURCC over the first four characters of psz_arg. -/
def fourccOfChars (a : List Char) : Nat :=
  match a with
  | c1 :: c2 :: c3 :: c4 :: _ =>
    VLC_FOURCC c1.toNat c2.toNat c3.toNat c4.toNat
  | _ => 0

/-- The mutable state UserPmt works on: the 8192-entry PID table
and the sys counters it touches. -/
structure user_pmt_state where
  pids : Nat → ts_pid_t
  i_pmt_es : Int := 0
  b_es_id_pid : Bool := false
  b_user_pmt : Bool := false

/-- Result of a successful UserPmt call. -/
structure user_pmt_result where
  st : user_pmt_state
  pmtPid : Nat
  prg : ts_prg_psi_t
  events : List TsEvent

/-- One elementary-stream token pid:opt or pid:opt=arg of the
override string (the while body of UserPmt). -/
def userPmtToken (i_number : Int)
    (acc : user_pmt_state × ts_prg_psi_t × List TsEvent)
    (tok : List Char) : user_pmt_state × ts_prg_psi_t × List TsEvent :=
  let st := acc.1
  let prg := acc.2.1
  let evs := acc.2.2
  let r := strtol0 tok
  let i_pid := r.1
  match r.2 with
  | ':' :: opt =>
    if i_pid < 2 ∨ i_pid ≥ 8192 then acc
    else
      let pidN := i_pid.toNat
      if opt = "pcr".toList then (st, { prg with i_pid_pcr := i_pid }, evs)
      else if (st.pids pidN).b_valid then acc
      else
        let cut := splitFirst '=' opt
        let psz_opt := match cut with | none => opt | some p => p.1
        let psz_arg : Option (List Char) :=
          match cut with | none => none | some p => some p.2
        let prg2 := if prg.i_pid_pcr ≤ 0 then { prg with i_pid_pcr := i_pid }
          else prg
        let fmt : EsCat × Nat :=
          match psz_arg with
          | some a =>
            if a.length = 4 then
              let i_cat : EsCat :=
                if psz_opt = "video".toList then EsCat.video
                else if psz_opt = "audio".toList then EsCat.audio
                else if psz_opt = "spu".toList then EsCat.spu
                else EsCat.unknown
              (i_cat, fourccOfChars a)
            else PIDFillFormat (strtol0 psz_opt).1.toNat
          | none => PIDFillFormat (strtol0 psz_opt).1.toNat
        let registered := fmt.1 ≠ EsCat.unknown
        let newPid : ts_pid_t :=
          { i_pid := pidN
            b_valid := true
            es :=
              { fmt_cat := fmt.1
                fmt_codec := fmt.2
                fmt_group := i_number
                id := registered } }
        let st2 :=
          { st with
            pids := fun j => if j = pidN then newPid else st.pids j
            i_pmt_es := st.i_pmt_es + (if registered then 1 else 0) }
        let evs2 := evs ++
          (if registered then [TsEvent.esOutAdd pidN fmt.1 fmt.2] else [])
        (st2, prg2, evs2)
  | _ => acc

/-- UserPmt: parse pmt-pid[:number][=pid:opt[=arg][,...]], install
the PMT pid, build the dummy program, create and possibly register
each listed elementary stream, and set b_user_pmt; none is the
VLC_EGENERIC error exit for an out-of-range PMT pid. -/
def UserPmt (st : user_pmt_state) (s : List Char) :
    Option user_pmt_result :=
  let r0 := strtol0 s
  let i_pid := r0.1
  if i_pid < 2 ∨ i_pid ≥ 8192 then none
  else
    let numR : Int × List Char :=
      match r0.2 with
      | ':' :: r => strtol0 r
      | _ => (0, r0.2)
    let i_number := numR.1
    let pmtN := i_pid.toNat
    let pmtPidRec : ts_pid_t := { i_pid := pmtN, b_valid := true, psi := true }
    let st1 :=
      { st with pids := fun j => if j = pmtN then pmtPidRec else st.pids j }
    let prg0 : ts_prg_psi_t :=
      { i_number := if i_number ≠ 0 then i_number else TS_USER_PMT_NUMBER
        i_pid_pmt := -1
        i_pid_pcr := -1
        i_version := -1 }
    let toks : List (List Char) :=
      match splitFirst '=' numR.2 with
      | none => []
      | some p => splitOnComma p.2
    let res := toks.foldl (userPmtToken i_number) (st1, prg0, [])
    some
      { st := { res.1 with b_user_pmt := true }
        pmtPid := pmtN
        prg := res.2.1
        events := res.2.2 }

/-- Initial PID table for UserPmt: all 8192 entries invalid. -/
def upmSt0 : user_pmt_state := { pids := fun i => { i_pid := i } }

/-- C7 counterexample: on the claimed override string
"100:5=200:video,201:audio" UserPmt registers nothing with the
output sink: strtol("video") and strtol("audio") convert no digits,
so both pids go through the stream-type table with type 0, get
UNKNOWN_ES with codec 0, and es_out_Add is never reached (zero
events, i_pmt_es stays 0, es handles unset). -/
theorem C7_counterexample :
    (UserPmt upmSt0 "100:5=200:video,201:audio".toList).map
        user_pmt_result.events = some [] ∧
    (UserPmt upmSt0 "100:5=200:video,201:audio".toList).map
        (fun r => r.st.i_pmt_es) = some 0 ∧
    (UserPmt upmSt0 "100:5=200:video,201:audio".toList).map
        (fun r => (r.st.pids 200).es.fmt_cat) = some EsCat.unknown ∧
    (UserPmt upmSt0 "100:5=200:video,201:audio".toList).map
        (fun r => (r.st.pids 200).es.id) = some false ∧
    (UserPmt upmSt0 "100:5=200:video,201:audio".toList).map
        (fun r => (r.st.pids 201).es.fmt_cat) = some EsCat.unknown ∧
    (UserPmt upmSt0 "100:5=200:video,201:audio".toList).map
        (fun r => (r.st.pids 201).es.id) = some false := by
  decide

/-- C7 (amended): "100:5=200:video,201:audio" does create a user
program numbered 5 on PMT pid 100 without any PAT/PMT bytes, and
creates valid pid entries 200 and 201, but classifies both
UNKNOWN_ES (the option word before a missing =fourcc arg is fed to
strtol, yielding stream type 0) and registers neither; registration
requires either a four-character codec argument
("100:5=200:video=mp4v,201:audio=mp4a" adds both streams with the
stated categories and fourccs and counts them in i_pmt_es) or a
known numeric stream type ("100:5=200:27" adds an H.264 video
stream). -/
theorem C7_user_pmt :
    ((UserPmt upmSt0 "100:5=200:video,201:audio".toList).map
        (fun r => r.prg.i_number) = some 5 ∧
      (UserPmt upmSt0 "100:5=200:video,201:audio".toList).map
        user_pmt_result.pmtPid = some 100 ∧
      (UserPmt upmSt0 "100:5=200:video,201:audio".toList).map
        (fun r => (r.st.pids 100).psi) = some true ∧
      (UserPmt upmSt0 "100:5=200:video,201:audio".toList).map
        (fun r => r.st.b_user_pmt) = some true ∧
      (UserPmt upmSt0 "100:5=200:video,201:audio".toList).map
        (fun r => ((r.st.pids 200).b_valid, (r.st.pids 201).b_valid)) =
        some (true, true) ∧
      (UserPmt upmSt0 "100:5=200:video,201:audio".toList).map
        (fun r => ((r.st.pids 200).es.fmt_cat, (r.st.pids 201).es.fmt_cat)) =
        some (EsCat.unknown, EsCat.unknown) ∧
      (UserPmt upmSt0 "100:5=200:video,201:audio".toList).map
        user_pmt_result.events = some [] ∧
      (UserPmt upmSt0 "100:5=200:video,201:audio".toList).map
        (fun r => r.st.i_pmt_es) = some 0) ∧
    ((UserPmt upmSt0 "100:5=200:video=mp4v,201:audio=mp4a".toList).map
        user_pmt_result.events =
        some [TsEvent.esOutAdd 200 EsCat.video VLC_CODEC_MP4V,
          TsEvent.esOutAdd 201 EsCat.audio VLC_CODEC_MP4A] ∧
      (UserPmt upmSt0 "100:5=200:video=mp4v,201:audio=mp4a".toList).map
        (fun r => r.st.i_pmt_es) = some 2 ∧
      (UserPmt upmSt0 "100:5=200:video=mp4v,201:audio=mp4a".toList).map
        (fun r => ((r.st.pids 200).es.fmt_group, (r.st.pids 201).es.id)) =
        some (5, true) ∧
      (UserPmt upmSt0 "100:5=200:video=mp4v,201:audio=mp4a".toList).map
        (fun r => r.prg.i_pid_pcr) = some 200) ∧
    (UserPmt upmSt0 "100:5=200:27".toList).map
        user_pmt_result.events =
      some [TsEvent.esOutAdd 200 EsCat.video VLC_CODEC_H264] := by
  decide
